import Mathlib

/-!
Shallow embedding of the transcription API routes of this repository:
two Next.js API handlers (the translate endpoint `pages/api/asr/translate.ts`
with ffmpeg normalization and temp-file cleanup, and the simple transcription
endpoint), plus the health-check endpoint.

External effects (form parsing, ffmpeg, the remote AI file service, the
generative model, the clock, the filesystem) are modelled by an environment
record supplying the result of each outbound call, and each handler is a pure
function from the request method and that environment to an HTTP outcome, a
final local filesystem (the list of temp-file paths still existing), and the
ordered trace of external calls it performed.
-/

namespace Asr

/-- A JavaScript thrown value, as discriminated by the handlers' catch blocks:
an `Error` object carrying a message, a plain string, or anything else. -/
inductive Thrown where
  | errObj (message : String)
  | strVal (s : String)
  | otherVal
deriving DecidableEq, Repr

/-- `FileState` from the `@google/generative-ai/server` SDK, as used by the code. -/
inductive FileState where
  | PROCESSING
  | ACTIVE
  | FAILED
deriving DecidableEq, Repr

/-- One part of the parsed multipart form, as formidable reports it
(`filepath`, `mimetype`, `originalFilename`), together with the form field
name it was posted under. -/
structure Part where
  name : String
  filepath : String
  mimetype : Option String
  originalFilename : Option String
deriving DecidableEq, Repr

/-- The `{ filepath, mimetype }` pair flowing from the normalization step to
the upload step. -/
structure ProcFile where
  filepath : String
  mimetype : String
deriving DecidableEq, Repr

/-- The remote handle returned by `fileManager.uploadFile`. -/
structure RemoteFile where
  name : String
  uri : String
  mimeType : String
deriving DecidableEq, Repr

/-- Trace of the externally visible calls a handler performs, in order. -/
inductive Event where
  | convertCall (input : String) (output : String)
  | uploadCall (filepath : String) (mimeType : String) (displayName : String)
  | getFileCall (name : String)
  | sleep (ms : Nat)
  | generateCall (prompt : String) (fileUri : String) (mimeType : String)
  | unlinkCall (path : String)
deriving DecidableEq, Repr

/-- JavaScript `String.prototype.startsWith`, as a structural prefix test on
the character data (kernel-reducible, unlike `String.startsWith`). -/
def strStartsWith (s p : String) : Bool :=
  s.data.take p.data.length == p.data

/-- Character-wise lowercasing (kernel-reducible, unlike `String.toLower`). -/
def lowerStr (s : String) : String :=
  ⟨s.data.map Char.toLower⟩

def Event.isConvert : Event → Bool
  | .convertCall _ _ => true
  | _ => false

def Event.isGenerate : Event → Bool
  | .generateCall _ _ _ => true
  | _ => false

def Event.isUnlink : Event → Bool
  | .unlinkCall _ => true
  | _ => false

def Event.isPoll : Event → Bool
  | .getFileCall _ => true
  | .sleep _ => true
  | _ => false

/-- Whether an event uploads or deletes the local file at path `p`. -/
def Event.touches (p : String) : Event → Bool
  | .uploadCall fp _ _ => fp == p
  | .unlinkCall fp => fp == p
  | _ => false

/-- JSON response bodies produced by the two transcription handlers. -/
inductive Body where
  | err (error : String)
  | errDetails (error : String) (details : String)
  | success (timestamp : Option String) (generatedContent : String)
deriving DecidableEq, Repr

/-- Either an HTTP response was sent, or the handler never resolves
(the unbounded polling loop when the oracle of poll answers runs out while
the state is still `PROCESSING`). -/
inductive Outcome where
  | resp (status : Nat) (body : Body)
  | hang
deriving DecidableEq, Repr

/-- Result of running a handler: the outcome, the final local filesystem
(paths of temp files still on disk), and the trace of external calls. -/
structure HResult where
  outcome : Outcome
  fs : List String
  events : List Event
deriving DecidableEq, Repr

/-- Environment: the result of each outbound call the handler may make.
`parseResult` is the raw list of form parts the parser would deliver before
MIME filtering (or the parse error); `pollResults` is the sequence of answers
successive `getFile` calls would receive. -/
structure Env where
  parseResult : Except Thrown (List Part)
  convertResult : Except Thrown Unit
  uploadResult : Except Thrown RemoteFile
  pollResults : List (Except Thrown FileState)
  generateResult : Except Thrown String
  now : String
deriving Repr

/-- The catch-block classifier of the translate endpoint:
`error instanceof Error ? error.message : typeof error === "string" ? error : "Unknown error"`. -/
def translateDetails : Thrown → String
  | .errObj m => m
  | .strVal s => s
  | .otherVal => "Unknown error"

/-- The catch-block classifier of the simple endpoint:
`error instanceof Error ? error.message : "Unknown error"`. -/
def simpleDetails : Thrown → String
  | .errObj m => m
  | _ => "Unknown error"

/-- The MIME allow-list of the translate endpoint's formidable filter. -/
def translateSupportedTypes : List String :=
  ["audio/mpeg", "audio/mp3", "audio/wav", "audio/ogg", "audio/webm", "video/webm"]

/-- The translate endpoint's formidable `filter` option:
`if (!mimetype || !supportedTypes.includes(mimetype)) return false; return true`. -/
def translateFilter (mimetype : Option String) : Bool :=
  match mimetype with
  | none => false
  | some m => translateSupportedTypes.contains m

/-- The MIME allow-list of the simple endpoint. -/
def simpleAllowedTypes : List String :=
  ["audio/mpeg", "audio/mp3", "audio/wav", "audio/ogg"]

/-- The simple endpoint's formidable `filter` option:
`({ mimetype }) => !!mimetype && [...].includes(mimetype)`. -/
def simpleFilter (mimetype : Option String) : Bool :=
  match mimetype with
  | none => false
  | some m => simpleAllowedTypes.contains m

/-- `Array.isArray(files.file) ? files.file[0] : files.file`: from the parts
kept by the filter, the entry posted under field name `"file"` (the first, in
the array case). -/
def selectFile (kept : List Part) : Option Part :=
  (kept.filter (fun p => p.name == "file")).head?

/-- `file.originalFilename || "audio_file"` (the empty string is falsy in JS). -/
def displayName (file : Part) : String :=
  match file.originalFilename with
  | none => "audio_file"
  | some s => if s == "" then "audio_file" else s

/-- The polling loop of both handlers:
`let st = await getFile(name); while (st.state === PROCESSING) { await sleep(10000); st = await getFile(name) }`.
The oracle list supplies the successive `getFile` answers; exhausting it while
still `PROCESSING` models the unbounded loop never terminating. -/
inductive PollResult where
  | final (s : FileState)
  | thrown (e : Thrown)
  | hang
deriving DecidableEq, Repr

def pollLoop (name : String) : List (Except Thrown FileState) → PollResult × List Event
  | [] => (.hang, [.getFileCall name])
  | .error e :: _ => (.thrown e, [.getFileCall name])
  | .ok s :: rest =>
      match s with
      | .PROCESSING =>
          let r := pollLoop name rest
          (r.1, .getFileCall name :: .sleep 10000 :: r.2)
      | _ => (.final s, [.getFileCall name])

/-- The translate endpoint's finally-block cleanup:
`try { await fs.unlink(file.filepath); await fs.unlink(file.filepath + ".mp3") } catch { ... }`.
`fs.unlink` of a missing path throws, so when the first unlink fails the
second is never attempted; all errors are swallowed. -/
def cleanup (file : Part) (fs : List String) : List String × List Event :=
  if fs.contains file.filepath then
    ((fs.erase file.filepath).erase (file.filepath ++ ".mp3"),
     [.unlinkCall file.filepath, .unlinkCall (file.filepath ++ ".mp3")])
  else
    (fs, [.unlinkCall file.filepath])

/-- Finish a translate-endpoint try/catch path: send the response, then run
the finally-block cleanup for the selected file. -/
def finishWith (st : Nat) (b : Body) (file : Part) (fs : List String) (evs : List Event) :
    HResult :=
  { outcome := .resp st b
    fs := (cleanup file fs).1
    events := evs ++ (cleanup file fs).2 }

namespace Translate

/-- `parseFormData` of the translate endpoint: apply the formidable MIME
filter; if no file survives (`!Object.keys(files).length`) reject with
`new Error("No file uploaded")`. -/
def parseFormData (raw : Except Thrown (List Part)) : Except Thrown (List Part) :=
  match raw with
  | .error e => .error e
  | .ok parts =>
      let kept := parts.filter (fun p => translateFilter p.mimetype)
      if kept.isEmpty then .error (.errObj "No file uploaded")
      else .ok kept

/-- The pipeline of the translate handler from the `uploadFile` call on:
upload, poll, check for `FAILED`, generate, respond; every response path runs
the finally-block cleanup. `pf` is the (possibly normalized) file passed to
upload, `fs1` the local filesystem at that point, `evs1` the trace so far. -/
def afterNormalize (file : Part) (pf : ProcFile) (env : Env) (fs1 : List String)
    (evs1 : List Event) : HResult :=
  match env.uploadResult with
  | .error e =>
      finishWith 500 (.errDetails "Processing failed" (translateDetails e)) file fs1
        (evs1 ++ [.uploadCall pf.filepath pf.mimetype (displayName file)])
  | .ok rf =>
      match (pollLoop rf.name env.pollResults).1 with
      | .hang =>
          { outcome := .hang
            fs := fs1
            events := evs1 ++ [.uploadCall pf.filepath pf.mimetype (displayName file)]
                        ++ (pollLoop rf.name env.pollResults).2 }
      | .thrown e =>
          finishWith 500 (.errDetails "Processing failed" (translateDetails e)) file fs1
            (evs1 ++ [.uploadCall pf.filepath pf.mimetype (displayName file)]
               ++ (pollLoop rf.name env.pollResults).2)
      | .final s =>
          if s == FileState.FAILED then
            finishWith 500 (.errDetails "Processing failed" "Audio processing failed") file fs1
              (evs1 ++ [.uploadCall pf.filepath pf.mimetype (displayName file)]
                 ++ (pollLoop rf.name env.pollResults).2)
          else
            match env.generateResult with
            | .error e =>
                finishWith 500 (.errDetails "Processing failed" (translateDetails e)) file fs1
                  (evs1 ++ [.uploadCall pf.filepath pf.mimetype (displayName file)]
                     ++ (pollLoop rf.name env.pollResults).2
                     ++ [.generateCall "transcribe the given audio file" rf.uri rf.mimeType])
            | .ok t =>
                finishWith 200 (.success (some env.now) t) file fs1
                  (evs1 ++ [.uploadCall pf.filepath pf.mimetype (displayName file)]
                     ++ (pollLoop rf.name env.pollResults).2
                     ++ [.generateCall "transcribe the given audio file" rf.uri rf.mimeType])

/-- The translate endpoint handler (`pages/api/asr/translate.ts`). -/
def handler (method : String) (env : Env) : HResult :=
  if method != "POST" then
    { outcome := .resp 405 (.err "Method not allowed"), fs := [], events := [] }
  else
    match parseFormData env.parseResult with
    | .error e =>
        -- parsedFiles is still null, so the finally block does nothing
        { outcome := .resp 500 (.errDetails "Processing failed" (translateDetails e))
          fs := [], events := [] }
    | .ok kept =>
        match selectFile kept with
        | none =>
            -- 400 with no selected file: the finally block sees a null file
            { outcome := .resp 400 (.err "Invalid or missing file")
              fs := kept.map (fun p => p.filepath), events := [] }
        | some file =>
            if file.mimetype.getD "" == "" then
              -- `!file.mimetype`: 400, but the finally block still unlinks
              finishWith 400 (.err "Invalid or missing file") file
                (kept.map (fun p => p.filepath)) []
            else
              if strStartsWith (file.mimetype.getD "") "video/"
                  || file.mimetype.getD "" == "audio/webm" then
                match env.convertResult with
                | .error e =>
                    finishWith 500 (.errDetails "Processing failed" (translateDetails e)) file
                      (kept.map (fun p => p.filepath))
                      [.convertCall file.filepath (file.filepath ++ ".mp3")]
                | .ok _ =>
                    afterNormalize file
                      { filepath := file.filepath ++ ".mp3", mimetype := "audio/mp3" } env
                      (kept.map (fun p => p.filepath) ++ [file.filepath ++ ".mp3"])
                      [.convertCall file.filepath (file.filepath ++ ".mp3")]
              else
                afterNormalize file
                  { filepath := file.filepath, mimetype := file.mimetype.getD "" } env
                  (kept.map (fun p => p.filepath)) []

end Translate

namespace Simple

/-- `parseFormData` of the simple endpoint: apply the MIME filter; no
emptiness check (it resolves `{ files }` even when nothing survived). -/
def parseFormData (raw : Except Thrown (List Part)) : Except Thrown (List Part) :=
  match raw with
  | .error e => .error e
  | .ok parts => .ok (parts.filter (fun p => simpleFilter p.mimetype))

/-- The simple handler from the `uploadFile` call on: upload, poll, check for
`FAILED`, generate, respond. No cleanup anywhere: the filesystem is returned
unchanged. -/
def afterUpload (file : Part) (env : Env) (fs1 : List String) : HResult :=
  match env.uploadResult with
  | .error e =>
      { outcome := .resp 500 (.errDetails "Processing failed" (simpleDetails e))
        fs := fs1
        events := [.uploadCall file.filepath (file.mimetype.getD "") (displayName file)] }
  | .ok rf =>
      match (pollLoop rf.name env.pollResults).1 with
      | .hang =>
          { outcome := .hang
            fs := fs1
            events := [.uploadCall file.filepath (file.mimetype.getD "") (displayName file)]
                        ++ (pollLoop rf.name env.pollResults).2 }
      | .thrown e =>
          { outcome := .resp 500 (.errDetails "Processing failed" (simpleDetails e))
            fs := fs1
            events := [.uploadCall file.filepath (file.mimetype.getD "") (displayName file)]
                        ++ (pollLoop rf.name env.pollResults).2 }
      | .final s =>
          if s == FileState.FAILED then
            { outcome := .resp 500 (.errDetails "Processing failed" "Audio processing failed")
              fs := fs1
              events := [.uploadCall file.filepath (file.mimetype.getD "") (displayName file)]
                          ++ (pollLoop rf.name env.pollResults).2 }
          else
            match env.generateResult with
            | .error e =>
                { outcome := .resp 500 (.errDetails "Processing failed" (simpleDetails e))
                  fs := fs1
                  events := [.uploadCall file.filepath (file.mimetype.getD "") (displayName file)]
                              ++ (pollLoop rf.name env.pollResults).2
                              ++ [.generateCall "transcribe the given audio file" rf.uri rf.mimeType] }
            | .ok t =>
                { outcome := .resp 200 (.success none t)
                  fs := fs1
                  events := [.uploadCall file.filepath (file.mimetype.getD "") (displayName file)]
                              ++ (pollLoop rf.name env.pollResults).2
                              ++ [.generateCall "transcribe the given audio file" rf.uri rf.mimeType] }

/-- The simple transcription endpoint handler. -/
def handler (method : String) (env : Env) : HResult :=
  if method != "POST" then
    { outcome := .resp 405 (.err "Method not allowed"), fs := [], events := [] }
  else
    match parseFormData env.parseResult with
    | .error e =>
        { outcome := .resp 500 (.errDetails "Processing failed" (simpleDetails e))
          fs := [], events := [] }
    | .ok kept =>
        match selectFile kept with
        | none =>
            { outcome := .resp 400 (.err "Invalid or missing file")
              fs := kept.map (fun p => p.filepath), events := [] }
        | some file =>
            if file.mimetype.getD "" == ""
                || !(simpleAllowedTypes.contains (file.mimetype.getD "")) then
              { outcome := .resp 400 (.err "Invalid or missing file")
                fs := kept.map (fun p => p.filepath), events := [] }
            else
              afterUpload file env (kept.map (fun p => p.filepath))

end Simple

namespace Health

/-- Shape of the health endpoint's JSON body. -/
structure HealthResponse where
  status : String
  timestamp : String
  service : String
  version : String
deriving DecidableEq, Repr

/-- `process.env.APP_VERSION || '1.0.0'` (the empty string is falsy in JS). -/
def healthVersion (appVersion : Option String) : String :=
  match appVersion with
  | none => "1.0.0"
  | some v => if v == "" then "1.0.0" else v

/-- The health-check endpoint handler. -/
def handler (method : String) (now : String) (appVersion : Option String) :
    Nat × HealthResponse :=
  if method != "GET" then
    (405, { status := "ERROR", timestamp := now, service := "health-check-api"
            version := healthVersion appVersion })
  else
    (200, { status := "OK", timestamp := now, service := "health-check-api"
            version := healthVersion appVersion })

end Health

/-! ### Helper lemmas -/

/-- Number of leading `ok PROCESSING` answers in a poll oracle. -/
def leadingProcessing : List (Except Thrown FileState) → Nat
  | [] => 0
  | .error _ :: _ => 0
  | .ok s :: rest =>
      match s with
      | .PROCESSING => leadingProcessing rest + 1
      | _ => 0

theorem pollLoop_events_shape (name : String) (rs : List (Except Thrown FileState)) :
    (pollLoop name rs).2 =
      (List.replicate (leadingProcessing rs)
        [Event.getFileCall name, Event.sleep 10000]).flatten ++ [Event.getFileCall name] := by
  induction rs with
  | nil => simp [pollLoop, leadingProcessing]
  | cons r rest ih =>
      cases r with
      | error e => simp [pollLoop, leadingProcessing]
      | ok s =>
          cases s with
          | PROCESSING =>
              simp [pollLoop, leadingProcessing, List.replicate_succ, ih]
          | ACTIVE => simp [pollLoop, leadingProcessing]
          | FAILED => simp [pollLoop, leadingProcessing]

theorem pollLoop_final_ne (name : String) (rs : List (Except Thrown FileState))
    (s : FileState) (h : (pollLoop name rs).1 = .final s) : s ≠ FileState.PROCESSING := by
  induction rs with
  | nil => simp [pollLoop] at h
  | cons r rest ih =>
      cases r with
      | error e => simp [pollLoop] at h
      | ok st =>
          cases st with
          | PROCESSING => exact ih (by simpa [pollLoop] using h)
          | ACTIVE => simp [pollLoop] at h; simp [← h]
          | FAILED => simp [pollLoop] at h; simp [← h]

theorem pollLoop_events_mem (name : String) (rs : List (Except Thrown FileState))
    (e : Event) (h : e ∈ (pollLoop name rs).2) :
    e = Event.getFileCall name ∨ e = Event.sleep 10000 := by
  induction rs with
  | nil => simp [pollLoop] at h; simp [h]
  | cons r rest ih =>
      cases r with
      | error e2 => simp [pollLoop] at h; simp [h]
      | ok st =>
          cases st with
          | PROCESSING =>
              simp [pollLoop] at h
              rcases h with h | h | h
              · simp [h]
              · simp [h]
              · exact ih h
          | ACTIVE => simp [pollLoop] at h; simp [h]
          | FAILED => simp [pollLoop] at h; simp [h]

theorem pollLoop_events_poll (name : String) (rs : List (Except Thrown FileState)) :
    (pollLoop name rs).2.filter Event.isPoll = (pollLoop name rs).2 :=
  List.filter_eq_self.mpr (fun e he => by
    rcases pollLoop_events_mem name rs e he with h | h <;> simp [h, Event.isPoll])

theorem cleanup_events_mem (f : Part) (fs : List String) (e : Event)
    (h : e ∈ (cleanup f fs).2) :
    e = Event.unlinkCall f.filepath ∨ e = Event.unlinkCall (f.filepath ++ ".mp3") := by
  unfold cleanup at h
  by_cases hc : f.filepath ∈ fs
  · simp [hc] at h
    rcases h with h | h <;> simp [h]
  · simp [hc] at h
    simp [h]

theorem cleanup_events_unlink (f : Part) (fs : List String) (e : Event)
    (h : e ∈ (cleanup f fs).2) : e.isUnlink = true := by
  rcases cleanup_events_mem f fs e h with h2 | h2 <;> simp [h2, Event.isUnlink]

theorem cleanup_poll_filter (f : Part) (fs : List String) :
    (cleanup f fs).2.filter Event.isPoll = [] := by
  rw [List.filter_eq_nil_iff]
  intro e he
  rcases cleanup_events_mem f fs e he with h | h <;> simp [h, Event.isPoll]

theorem cleanup_spec (f : Part) (fs : List String)
    (hmem : f.filepath ∈ fs) (hnd : fs.Nodup) :
    (cleanup f fs).2 =
        [Event.unlinkCall f.filepath, Event.unlinkCall (f.filepath ++ ".mp3")] ∧
      f.filepath ∉ (cleanup f fs).1 ∧ (f.filepath ++ ".mp3") ∉ (cleanup f fs).1 := by
  have h1 : (cleanup f fs).1 = (fs.erase f.filepath).erase (f.filepath ++ ".mp3") := by
    simp [cleanup, hmem]
  have h2 : (cleanup f fs).2 =
      [Event.unlinkCall f.filepath, Event.unlinkCall (f.filepath ++ ".mp3")] := by
    simp [cleanup, hmem]
  refine ⟨h2, ?_, ?_⟩
  · rw [h1]
    intro hin
    exact hnd.not_mem_erase (List.mem_of_mem_erase hin)
  · rw [h1]
    exact (hnd.erase f.filepath).not_mem_erase

theorem cleanup_keeps (f : Part) (fs : List String) (p : String)
    (h1 : p ≠ f.filepath) (h2 : p ≠ f.filepath ++ ".mp3") (hmem : p ∈ fs) :
    p ∈ (cleanup f fs).1 := by
  unfold cleanup
  by_cases hc : f.filepath ∈ fs <;> simp [hc]
  · exact (List.mem_erase_of_ne h2).mpr ((List.mem_erase_of_ne h1).mpr hmem)
  · exact hmem

theorem mem_translate_ne_empty {m : String} (hm : m ∈ translateSupportedTypes) :
    (m == "") = false := by
  cases h : m == "" with
  | false => rfl
  | true =>
      have hm0 : m = "" := by simpa using h
      subst hm0
      exact absurd hm (by decide)

theorem mem_simple_translate {m : String} (hm : m ∈ simpleAllowedTypes) :
    m ∈ translateSupportedTypes := by
  simp [simpleAllowedTypes] at hm
  rcases hm with h | h | h | h <;> simp [h, translateSupportedTypes]

theorem translateFilter_some {mt : Option String} (h : translateFilter mt = true) :
    ∃ m, mt = some m ∧ m ∈ translateSupportedTypes := by
  cases mt with
  | none => simp [translateFilter] at h
  | some m => exact ⟨m, rfl, by simpa [translateFilter] using h⟩

theorem simpleFilter_some {mt : Option String} (h : simpleFilter mt = true) :
    ∃ m, mt = some m ∧ m ∈ simpleAllowedTypes := by
  cases mt with
  | none => simp [simpleFilter] at h
  | some m => exact ⟨m, rfl, by simpa [simpleFilter] using h⟩

/-- Reduction of the translate handler on a POST request whose parse yields
the parts `f :: rest`, all named `file` and all passing the MIME filter. -/
theorem translate_handler_parts (env : Env) (f : Part) (rest : List Part)
    (hp : env.parseResult = .ok (f :: rest))
    (hall : ∀ p ∈ f :: rest, translateFilter p.mimetype = true ∧ p.name = "file") :
    Translate.handler "POST" env =
      if strStartsWith (f.mimetype.getD "") "video/"
          || f.mimetype.getD "" == "audio/webm" then
        match env.convertResult with
        | .error e =>
            finishWith 500 (.errDetails "Processing failed" (translateDetails e)) f
              ((f :: rest).map (fun p => p.filepath))
              [.convertCall f.filepath (f.filepath ++ ".mp3")]
        | .ok _ =>
            Translate.afterNormalize f { filepath := f.filepath ++ ".mp3", mimetype := "audio/mp3" } env
              ((f :: rest).map (fun p => p.filepath) ++ [f.filepath ++ ".mp3"])
              [.convertCall f.filepath (f.filepath ++ ".mp3")]
      else
        Translate.afterNormalize f { filepath := f.filepath, mimetype := f.mimetype.getD "" } env
          ((f :: rest).map (fun p => p.filepath)) [] := by
  have hfil : (f :: rest).filter (fun p => translateFilter p.mimetype) = f :: rest :=
    List.filter_eq_self.mpr (fun p hp2 => (hall p hp2).1)
  have hnames : (f :: rest).filter (fun p => p.name == "file") = f :: rest :=
    List.filter_eq_self.mpr (fun p hp2 => by simp [(hall p hp2).2])
  obtain ⟨m, hmt, hmem⟩ := translateFilter_some (hall f (by simp)).1
  have hne : (f.mimetype.getD "" == "") = false := by
    rw [hmt]
    exact mem_translate_ne_empty hmem
  simp [Translate.handler, Translate.parseFormData, hp, hfil, selectFile, hnames, hne]

/-- Special case: exactly one parsed file. -/
theorem translate_handler_single (env : Env) (f : Part) (m : String)
    (hp : env.parseResult = .ok [f]) (hmt : f.mimetype = some m)
    (hmem : m ∈ translateSupportedTypes) (hn : f.name = "file") :
    Translate.handler "POST" env =
      if strStartsWith m "video/" || m == "audio/webm" then
        match env.convertResult with
        | .error e =>
            finishWith 500 (.errDetails "Processing failed" (translateDetails e)) f
              [f.filepath] [.convertCall f.filepath (f.filepath ++ ".mp3")]
        | .ok _ =>
            Translate.afterNormalize f { filepath := f.filepath ++ ".mp3", mimetype := "audio/mp3" } env
              [f.filepath, f.filepath ++ ".mp3"]
              [.convertCall f.filepath (f.filepath ++ ".mp3")]
      else
        Translate.afterNormalize f { filepath := f.filepath, mimetype := m } env [f.filepath] [] := by
  have h := translate_handler_parts env f []
    (by simpa using hp)
    (by
      intro p hp2
      simp at hp2
      subst hp2
      constructor
      · rw [hmt]; simpa [translateFilter] using hmem
      · exact hn)
  rw [h]
  simp [hmt]

/-- Reduction of the simple handler on a POST request whose parse yields
the parts `f :: rest`, all named `file` and all passing its MIME filter. -/
theorem simple_handler_parts (env : Env) (f : Part) (rest : List Part)
    (hp : env.parseResult = .ok (f :: rest))
    (hall : ∀ p ∈ f :: rest, simpleFilter p.mimetype = true ∧ p.name = "file") :
    Simple.handler "POST" env =
      Simple.afterUpload f env ((f :: rest).map (fun p => p.filepath)) := by
  have hfil : (f :: rest).filter (fun p => simpleFilter p.mimetype) = f :: rest :=
    List.filter_eq_self.mpr (fun p hp2 => (hall p hp2).1)
  have hnames : (f :: rest).filter (fun p => p.name == "file") = f :: rest :=
    List.filter_eq_self.mpr (fun p hp2 => by simp [(hall p hp2).2])
  obtain ⟨m, hmt, hmem⟩ := simpleFilter_some (hall f (by simp)).1
  have hne : (f.mimetype.getD "" == "") = false := by
    rw [hmt]
    exact mem_translate_ne_empty (mem_simple_translate hmem)
  have hcont : f.mimetype.getD "" ∈ simpleAllowedTypes := by
    rw [hmt]
    simpa using hmem
  simp [Simple.handler, Simple.parseFormData, hp, hfil, selectFile, hnames, hne, hcont]

theorem afterNormalize_uploadError (f : Part) (pf : ProcFile) (env : Env)
    (fs1 : List String) (evs1 : List Event) (e : Thrown)
    (hu : env.uploadResult = .error e) :
    Translate.afterNormalize f pf env fs1 evs1 =
      finishWith 500 (.errDetails "Processing failed" (translateDetails e)) f fs1
        (evs1 ++ [.uploadCall pf.filepath pf.mimetype (displayName f)]) := by
  simp [Translate.afterNormalize, hu]

theorem afterNormalize_hang (f : Part) (pf : ProcFile) (env : Env)
    (fs1 : List String) (evs1 : List Event) (rf : RemoteFile)
    (hu : env.uploadResult = .ok rf)
    (hpoll : (pollLoop rf.name env.pollResults).1 = .hang) :
    Translate.afterNormalize f pf env fs1 evs1 =
      { outcome := .hang
        fs := fs1
        events := evs1 ++ [.uploadCall pf.filepath pf.mimetype (displayName f)]
                    ++ (pollLoop rf.name env.pollResults).2 } := by
  simp [Translate.afterNormalize, hu, hpoll]

theorem afterNormalize_pollThrown (f : Part) (pf : ProcFile) (env : Env)
    (fs1 : List String) (evs1 : List Event) (rf : RemoteFile) (e : Thrown)
    (hu : env.uploadResult = .ok rf)
    (hpoll : (pollLoop rf.name env.pollResults).1 = .thrown e) :
    Translate.afterNormalize f pf env fs1 evs1 =
      finishWith 500 (.errDetails "Processing failed" (translateDetails e)) f fs1
        (evs1 ++ [.uploadCall pf.filepath pf.mimetype (displayName f)]
           ++ (pollLoop rf.name env.pollResults).2) := by
  simp [Translate.afterNormalize, hu, hpoll]

theorem afterNormalize_failed (f : Part) (pf : ProcFile) (env : Env)
    (fs1 : List String) (evs1 : List Event) (rf : RemoteFile)
    (hu : env.uploadResult = .ok rf)
    (hpoll : (pollLoop rf.name env.pollResults).1 = .final .FAILED) :
    Translate.afterNormalize f pf env fs1 evs1 =
      finishWith 500 (.errDetails "Processing failed" "Audio processing failed") f fs1
        (evs1 ++ [.uploadCall pf.filepath pf.mimetype (displayName f)]
           ++ (pollLoop rf.name env.pollResults).2) := by
  simp [Translate.afterNormalize, hu, hpoll]

theorem afterNormalize_genError (f : Part) (pf : ProcFile) (env : Env)
    (fs1 : List String) (evs1 : List Event) (rf : RemoteFile) (s : FileState) (e : Thrown)
    (hu : env.uploadResult = .ok rf)
    (hpoll : (pollLoop rf.name env.pollResults).1 = .final s)
    (hs : s ≠ FileState.FAILED) (hg : env.generateResult = .error e) :
    Translate.afterNormalize f pf env fs1 evs1 =
      finishWith 500 (.errDetails "Processing failed" (translateDetails e)) f fs1
        (evs1 ++ [.uploadCall pf.filepath pf.mimetype (displayName f)]
           ++ (pollLoop rf.name env.pollResults).2
           ++ [.generateCall "transcribe the given audio file" rf.uri rf.mimeType]) := by
  simp [Translate.afterNormalize, hu, hpoll, hs, hg]

theorem afterNormalize_success (f : Part) (pf : ProcFile) (env : Env)
    (fs1 : List String) (evs1 : List Event) (rf : RemoteFile) (s : FileState) (t : String)
    (hu : env.uploadResult = .ok rf)
    (hpoll : (pollLoop rf.name env.pollResults).1 = .final s)
    (hs : s ≠ FileState.FAILED) (hg : env.generateResult = .ok t) :
    Translate.afterNormalize f pf env fs1 evs1 =
      finishWith 200 (.success (some env.now) t) f fs1
        (evs1 ++ [.uploadCall pf.filepath pf.mimetype (displayName f)]
           ++ (pollLoop rf.name env.pollResults).2
           ++ [.generateCall "transcribe the given audio file" rf.uri rf.mimeType]) := by
  simp [Translate.afterNormalize, hu, hpoll, hs, hg]

/-- Every response path of the translate pipeline tail runs the
finally-block cleanup last. -/
theorem afterNormalize_resolves (f : Part) (pf : ProcFile) (env : Env)
    (fs1 : List String) (evs1 : List Event) (st : Nat) (b : Body)
    (h : (Translate.afterNormalize f pf env fs1 evs1).outcome = .resp st b) :
    (Translate.afterNormalize f pf env fs1 evs1).fs = (cleanup f fs1).1 ∧
      ∃ pre, (Translate.afterNormalize f pf env fs1 evs1).events
               = pre ++ (cleanup f fs1).2 := by
  cases hu : env.uploadResult with
  | error e =>
      rw [afterNormalize_uploadError f pf env fs1 evs1 e hu]
      exact ⟨rfl, _, rfl⟩
  | ok rf =>
      cases hpoll : (pollLoop rf.name env.pollResults).1 with
      | hang =>
          rw [afterNormalize_hang f pf env fs1 evs1 rf hu hpoll] at h
          simp at h
      | thrown e =>
          rw [afterNormalize_pollThrown f pf env fs1 evs1 rf e hu hpoll]
          exact ⟨rfl, _, rfl⟩
      | final s =>
          by_cases hs : s = FileState.FAILED
          · subst hs
            rw [afterNormalize_failed f pf env fs1 evs1 rf hu hpoll]
            exact ⟨rfl, _, rfl⟩
          · cases hg : env.generateResult with
            | error e =>
                rw [afterNormalize_genError f pf env fs1 evs1 rf s e hu hpoll hs hg]
                exact ⟨rfl, _, rfl⟩
            | ok t =>
                rw [afterNormalize_success f pf env fs1 evs1 rf s t hu hpoll hs hg]
                exact ⟨rfl, _, rfl⟩

/-- Characterization of the events the translate pipeline tail can emit. -/
theorem afterNormalize_events_mem (f : Part) (pf : ProcFile) (env : Env)
    (fs1 : List String) (evs1 : List Event) (e : Event)
    (h : e ∈ (Translate.afterNormalize f pf env fs1 evs1).events) :
    e ∈ evs1 ∨ e = .uploadCall pf.filepath pf.mimetype (displayName f)
      ∨ e.isPoll = true ∨ e.isGenerate = true
      ∨ e = .unlinkCall f.filepath ∨ e = .unlinkCall (f.filepath ++ ".mp3") := by
  have hpollmem : ∀ rf : RemoteFile, e ∈ (pollLoop rf.name env.pollResults).2 →
      e.isPoll = true := by
    intro rf hm
    rcases pollLoop_events_mem rf.name env.pollResults e hm with h2 | h2 <;>
      simp [h2, Event.isPoll]
  cases hu : env.uploadResult with
  | error e2 =>
      rw [afterNormalize_uploadError f pf env fs1 evs1 e2 hu] at h
      simp [finishWith] at h
      rcases h with h | h | h
      · exact Or.inl h
      · exact Or.inr (Or.inl h)
      · rcases cleanup_events_mem f fs1 e h with h2 | h2 <;> simp [h2]
  | ok rf =>
      cases hpoll : (pollLoop rf.name env.pollResults).1 with
      | hang =>
          rw [afterNormalize_hang f pf env fs1 evs1 rf hu hpoll] at h
          simp at h
          rcases h with h | h | h
          · exact Or.inl h
          · exact Or.inr (Or.inl h)
          · exact Or.inr (Or.inr (Or.inl (hpollmem rf h)))
      | thrown e2 =>
          rw [afterNormalize_pollThrown f pf env fs1 evs1 rf e2 hu hpoll] at h
          simp [finishWith] at h
          rcases h with h | h | h | h
          · exact Or.inl h
          · exact Or.inr (Or.inl h)
          · exact Or.inr (Or.inr (Or.inl (hpollmem rf h)))
          · rcases cleanup_events_mem f fs1 e h with h2 | h2 <;> simp [h2]
      | final s =>
          by_cases hs : s = FileState.FAILED
          · subst hs
            rw [afterNormalize_failed f pf env fs1 evs1 rf hu hpoll] at h
            simp [finishWith] at h
            rcases h with h | h | h | h
            · exact Or.inl h
            · exact Or.inr (Or.inl h)
            · exact Or.inr (Or.inr (Or.inl (hpollmem rf h)))
            · rcases cleanup_events_mem f fs1 e h with h2 | h2 <;> simp [h2]
          · cases hg : env.generateResult with
            | error e2 =>
                rw [afterNormalize_genError f pf env fs1 evs1 rf s e2 hu hpoll hs hg] at h
                simp [finishWith] at h
                rcases h with h | h | h | h | h
                · exact Or.inl h
                · exact Or.inr (Or.inl h)
                · exact Or.inr (Or.inr (Or.inl (hpollmem rf h)))
                · simp [h, Event.isGenerate]
                · rcases cleanup_events_mem f fs1 e h with h2 | h2 <;> simp [h2]
            | ok t =>
                rw [afterNormalize_success f pf env fs1 evs1 rf s t hu hpoll hs hg] at h
                simp [finishWith] at h
                rcases h with h | h | h | h | h
                · exact Or.inl h
                · exact Or.inr (Or.inl h)
                · exact Or.inr (Or.inr (Or.inl (hpollmem rf h)))
                · simp [h, Event.isGenerate]
                · rcases cleanup_events_mem f fs1 e h with h2 | h2 <;> simp [h2]

/-- The status-poll events of the translate pipeline tail are exactly the
polling loop's trace. -/
theorem afterNormalize_poll_filter (f : Part) (pf : ProcFile) (env : Env)
    (fs1 : List String) (evs1 : List Event) (rf : RemoteFile)
    (hu : env.uploadResult = .ok rf) (hevs : evs1.filter Event.isPoll = []) :
    (Translate.afterNormalize f pf env fs1 evs1).events.filter Event.isPoll
      = (pollLoop rf.name env.pollResults).2 := by
  cases hpoll : (pollLoop rf.name env.pollResults).1 with
  | hang =>
      rw [afterNormalize_hang f pf env fs1 evs1 rf hu hpoll]
      simp [List.filter_append, hevs, Event.isPoll, pollLoop_events_poll]
  | thrown e =>
      rw [afterNormalize_pollThrown f pf env fs1 evs1 rf e hu hpoll]
      simp [finishWith, List.filter_append, hevs, Event.isPoll, pollLoop_events_poll,
        cleanup_poll_filter]
  | final s =>
      by_cases hs : s = FileState.FAILED
      · subst hs
        rw [afterNormalize_failed f pf env fs1 evs1 rf hu hpoll]
        simp [finishWith, List.filter_append, hevs, Event.isPoll, pollLoop_events_poll,
          cleanup_poll_filter]
      · cases hg : env.generateResult with
        | error e =>
            rw [afterNormalize_genError f pf env fs1 evs1 rf s e hu hpoll hs hg]
            simp [finishWith, List.filter_append, hevs, Event.isPoll, pollLoop_events_poll,
              cleanup_poll_filter]
        | ok t =>
            rw [afterNormalize_success f pf env fs1 evs1 rf s t hu hpoll hs hg]
            simp [finishWith, List.filter_append, hevs, Event.isPoll, pollLoop_events_poll,
              cleanup_poll_filter]

theorem selectFile_mem {kept : List Part} {f : Part} (h : selectFile kept = some f) :
    f ∈ kept := by
  unfold selectFile at h
  exact List.mem_of_mem_filter (List.mem_of_mem_head? h)

theorem parseFormData_ok_filter {raw : Except Thrown (List Part)} {kept : List Part}
    (h : Translate.parseFormData raw = .ok kept) :
    ∀ p ∈ kept, translateFilter p.mimetype = true := by
  intro p hp
  unfold Translate.parseFormData at h
  cases raw with
  | error e => simp at h
  | ok parts =>
      by_cases he : (parts.filter (fun q => translateFilter q.mimetype)).isEmpty
      · simp [he] at h
      · simp [he] at h
        subst h
        exact (List.mem_filter.mp hp).2

/-- Reduction of the translate handler on a POST request whose parse helper
succeeded and whose `files.file` selection produced a file. -/
theorem translate_handler_kept (env : Env) (kept : List Part) (f : Part)
    (hp : Translate.parseFormData env.parseResult = .ok kept)
    (hsel : selectFile kept = some f) :
    Translate.handler "POST" env =
      if strStartsWith (f.mimetype.getD "") "video/"
          || f.mimetype.getD "" == "audio/webm" then
        match env.convertResult with
        | .error e =>
            finishWith 500 (.errDetails "Processing failed" (translateDetails e)) f
              (kept.map (fun p => p.filepath))
              [.convertCall f.filepath (f.filepath ++ ".mp3")]
        | .ok _ =>
            Translate.afterNormalize f
              { filepath := f.filepath ++ ".mp3", mimetype := "audio/mp3" } env
              (kept.map (fun p => p.filepath) ++ [f.filepath ++ ".mp3"])
              [.convertCall f.filepath (f.filepath ++ ".mp3")]
      else
        Translate.afterNormalize f
          { filepath := f.filepath, mimetype := f.mimetype.getD "" } env
          (kept.map (fun p => p.filepath)) [] := by
  obtain ⟨m, hmt, hmem⟩ :=
    translateFilter_some (parseFormData_ok_filter hp f (selectFile_mem hsel))
  have hne : (f.mimetype.getD "" == "") = false := by
    rw [hmt]
    exact mem_translate_ne_empty hmem
  simp [Translate.handler, hp, hsel, hne]

/-- The translate pipeline tail's trace always starts with the trace it was
handed. -/
theorem afterNormalize_events_lead (f : Part) (pf : ProcFile) (env : Env)
    (fs1 : List String) (evs1 : List Event) :
    ∃ tl, (Translate.afterNormalize f pf env fs1 evs1).events = evs1 ++ tl := by
  cases hu : env.uploadResult with
  | error e =>
      rw [afterNormalize_uploadError f pf env fs1 evs1 e hu]
      exact ⟨[Event.uploadCall pf.filepath pf.mimetype (displayName f)] ++ (cleanup f fs1).2,
        by simp [finishWith]⟩
  | ok rf =>
      cases hpoll : (pollLoop rf.name env.pollResults).1 with
      | hang =>
          rw [afterNormalize_hang f pf env fs1 evs1 rf hu hpoll]
          exact ⟨[Event.uploadCall pf.filepath pf.mimetype (displayName f)]
            ++ (pollLoop rf.name env.pollResults).2, by simp⟩
      | thrown e =>
          rw [afterNormalize_pollThrown f pf env fs1 evs1 rf e hu hpoll]
          exact ⟨[Event.uploadCall pf.filepath pf.mimetype (displayName f)]
            ++ (pollLoop rf.name env.pollResults).2 ++ (cleanup f fs1).2,
            by simp [finishWith]⟩
      | final s =>
          by_cases hs : s = FileState.FAILED
          · subst hs
            rw [afterNormalize_failed f pf env fs1 evs1 rf hu hpoll]
            exact ⟨[Event.uploadCall pf.filepath pf.mimetype (displayName f)]
              ++ (pollLoop rf.name env.pollResults).2 ++ (cleanup f fs1).2,
              by simp [finishWith]⟩
          · cases hg : env.generateResult with
            | error e =>
                rw [afterNormalize_genError f pf env fs1 evs1 rf s e hu hpoll hs hg]
                exact ⟨[Event.uploadCall pf.filepath pf.mimetype (displayName f)]
                  ++ (pollLoop rf.name env.pollResults).2
                  ++ [Event.generateCall "transcribe the given audio file" rf.uri rf.mimeType]
                  ++ (cleanup f fs1).2, by simp [finishWith]⟩
            | ok t =>
                rw [afterNormalize_success f pf env fs1 evs1 rf s t hu hpoll hs hg]
                exact ⟨[Event.uploadCall pf.filepath pf.mimetype (displayName f)]
                  ++ (pollLoop rf.name env.pollResults).2
                  ++ [Event.generateCall "transcribe the given audio file" rf.uri rf.mimeType]
                  ++ (cleanup f fs1).2, by simp [finishWith]⟩

/-- The translate pipeline tail always performs the upload call with the
processed file it was handed. -/
theorem afterNormalize_upload_mem (f : Part) (pf : ProcFile) (env : Env)
    (fs1 : List String) (evs1 : List Event) :
    Event.uploadCall pf.filepath pf.mimetype (displayName f)
      ∈ (Translate.afterNormalize f pf env fs1 evs1).events := by
  cases hu : env.uploadResult with
  | error e =>
      rw [afterNormalize_uploadError f pf env fs1 evs1 e hu]
      simp [finishWith]
  | ok rf =>
      cases hpoll : (pollLoop rf.name env.pollResults).1 with
      | hang =>
          rw [afterNormalize_hang f pf env fs1 evs1 rf hu hpoll]
          simp
      | thrown e =>
          rw [afterNormalize_pollThrown f pf env fs1 evs1 rf e hu hpoll]
          simp [finishWith]
      | final s =>
          by_cases hs : s = FileState.FAILED
          · subst hs
            rw [afterNormalize_failed f pf env fs1 evs1 rf hu hpoll]
            simp [finishWith]
          · cases hg : env.generateResult with
            | error e =>
                rw [afterNormalize_genError f pf env fs1 evs1 rf s e hu hpoll hs hg]
                simp [finishWith]
            | ok t =>
                rw [afterNormalize_success f pf env fs1 evs1 rf s t hu hpoll hs hg]
                simp [finishWith]

/-- The translate pipeline tail leaves the filesystem unchanged (hang) or
applies the finally-block cleanup to it. -/
theorem afterNormalize_fs (f : Part) (pf : ProcFile) (env : Env)
    (fs1 : List String) (evs1 : List Event) :
    (Translate.afterNormalize f pf env fs1 evs1).fs = fs1 ∨
      (Translate.afterNormalize f pf env fs1 evs1).fs = (cleanup f fs1).1 := by
  cases hu : env.uploadResult with
  | error e =>
      rw [afterNormalize_uploadError f pf env fs1 evs1 e hu]
      exact Or.inr rfl
  | ok rf =>
      cases hpoll : (pollLoop rf.name env.pollResults).1 with
      | hang =>
          rw [afterNormalize_hang f pf env fs1 evs1 rf hu hpoll]
          exact Or.inl rfl
      | thrown e =>
          rw [afterNormalize_pollThrown f pf env fs1 evs1 rf e hu hpoll]
          exact Or.inr rfl
      | final s =>
          by_cases hs : s = FileState.FAILED
          · subst hs
            rw [afterNormalize_failed f pf env fs1 evs1 rf hu hpoll]
            exact Or.inr rfl
          · cases hg : env.generateResult with
            | error e =>
                rw [afterNormalize_genError f pf env fs1 evs1 rf s e hu hpoll hs hg]
                exact Or.inr rfl
            | ok t =>
                rw [afterNormalize_success f pf env fs1 evs1 rf s t hu hpoll hs hg]
                exact Or.inr rfl

/-- When the translate pipeline tail resolves with a response, both unlinks
are attempted and neither path survives on the filesystem. -/
theorem afterNormalize_cleanup (f : Part) (pf : ProcFile) (env : Env)
    (fs1 : List String) (evs1 : List Event) (st : Nat) (b : Body)
    (hres : (Translate.afterNormalize f pf env fs1 evs1).outcome = .resp st b)
    (hmem : f.filepath ∈ fs1) (hnd : fs1.Nodup) :
    Event.unlinkCall f.filepath ∈ (Translate.afterNormalize f pf env fs1 evs1).events ∧
      Event.unlinkCall (f.filepath ++ ".mp3")
          ∈ (Translate.afterNormalize f pf env fs1 evs1).events ∧
      f.filepath ∉ (Translate.afterNormalize f pf env fs1 evs1).fs ∧
      (f.filepath ++ ".mp3") ∉ (Translate.afterNormalize f pf env fs1 evs1).fs := by
  obtain ⟨hfs, pre, hev⟩ := afterNormalize_resolves f pf env fs1 evs1 st b hres
  obtain ⟨hcev, hn1, hn2⟩ := cleanup_spec f fs1 hmem hnd
  rw [hev, hcev, hfs]
  exact ⟨by simp, by simp, hn1, hn2⟩

theorem afterUpload_uploadError (f : Part) (env : Env) (fs1 : List String) (e : Thrown)
    (hu : env.uploadResult = .error e) :
    Simple.afterUpload f env fs1 =
      { outcome := .resp 500 (.errDetails "Processing failed" (simpleDetails e))
        fs := fs1
        events := [.uploadCall f.filepath (f.mimetype.getD "") (displayName f)] } := by
  simp [Simple.afterUpload, hu]

theorem afterUpload_hang (f : Part) (env : Env) (fs1 : List String) (rf : RemoteFile)
    (hu : env.uploadResult = .ok rf)
    (hpoll : (pollLoop rf.name env.pollResults).1 = .hang) :
    Simple.afterUpload f env fs1 =
      { outcome := .hang
        fs := fs1
        events := [.uploadCall f.filepath (f.mimetype.getD "") (displayName f)]
                    ++ (pollLoop rf.name env.pollResults).2 } := by
  simp [Simple.afterUpload, hu, hpoll]

theorem afterUpload_pollThrown (f : Part) (env : Env) (fs1 : List String)
    (rf : RemoteFile) (e : Thrown)
    (hu : env.uploadResult = .ok rf)
    (hpoll : (pollLoop rf.name env.pollResults).1 = .thrown e) :
    Simple.afterUpload f env fs1 =
      { outcome := .resp 500 (.errDetails "Processing failed" (simpleDetails e))
        fs := fs1
        events := [.uploadCall f.filepath (f.mimetype.getD "") (displayName f)]
                    ++ (pollLoop rf.name env.pollResults).2 } := by
  simp [Simple.afterUpload, hu, hpoll]

theorem afterUpload_failed (f : Part) (env : Env) (fs1 : List String) (rf : RemoteFile)
    (hu : env.uploadResult = .ok rf)
    (hpoll : (pollLoop rf.name env.pollResults).1 = .final .FAILED) :
    Simple.afterUpload f env fs1 =
      { outcome := .resp 500 (.errDetails "Processing failed" "Audio processing failed")
        fs := fs1
        events := [.uploadCall f.filepath (f.mimetype.getD "") (displayName f)]
                    ++ (pollLoop rf.name env.pollResults).2 } := by
  simp [Simple.afterUpload, hu, hpoll]

theorem afterUpload_genError (f : Part) (env : Env) (fs1 : List String)
    (rf : RemoteFile) (s : FileState) (e : Thrown)
    (hu : env.uploadResult = .ok rf)
    (hpoll : (pollLoop rf.name env.pollResults).1 = .final s)
    (hs : s ≠ FileState.FAILED) (hg : env.generateResult = .error e) :
    Simple.afterUpload f env fs1 =
      { outcome := .resp 500 (.errDetails "Processing failed" (simpleDetails e))
        fs := fs1
        events := [.uploadCall f.filepath (f.mimetype.getD "") (displayName f)]
                    ++ (pollLoop rf.name env.pollResults).2
                    ++ [.generateCall "transcribe the given audio file" rf.uri rf.mimeType] } := by
  simp [Simple.afterUpload, hu, hpoll, hs, hg]

theorem afterUpload_success (f : Part) (env : Env) (fs1 : List String)
    (rf : RemoteFile) (s : FileState) (t : String)
    (hu : env.uploadResult = .ok rf)
    (hpoll : (pollLoop rf.name env.pollResults).1 = .final s)
    (hs : s ≠ FileState.FAILED) (hg : env.generateResult = .ok t) :
    Simple.afterUpload f env fs1 =
      { outcome := .resp 200 (.success none t)
        fs := fs1
        events := [.uploadCall f.filepath (f.mimetype.getD "") (displayName f)]
                    ++ (pollLoop rf.name env.pollResults).2
                    ++ [.generateCall "transcribe the given audio file" rf.uri rf.mimeType] } := by
  simp [Simple.afterUpload, hu, hpoll, hs, hg]

/-- The simple pipeline never touches the local filesystem and never emits an
unlink event. -/
theorem afterUpload_no_unlink (f : Part) (env : Env) (fs1 : List String) :
    (Simple.afterUpload f env fs1).fs = fs1 ∧
      ∀ e ∈ (Simple.afterUpload f env fs1).events, e.isUnlink = false := by
  have hpollmem : ∀ rf : RemoteFile, ∀ e ∈ (pollLoop rf.name env.pollResults).2,
      Event.isUnlink e = false := by
    intro rf e hm
    rcases pollLoop_events_mem rf.name env.pollResults e hm with h2 | h2 <;>
      simp [h2, Event.isUnlink]
  cases hu : env.uploadResult with
  | error e2 =>
      rw [afterUpload_uploadError f env fs1 e2 hu]
      exact ⟨rfl, by intro e he; simp at he; simp [he, Event.isUnlink]⟩
  | ok rf =>
      cases hpoll : (pollLoop rf.name env.pollResults).1 with
      | hang =>
          rw [afterUpload_hang f env fs1 rf hu hpoll]
          refine ⟨rfl, ?_⟩
          intro e he
          simp at he
          rcases he with he | he
          · simp [he, Event.isUnlink]
          · exact hpollmem rf e he
      | thrown e2 =>
          rw [afterUpload_pollThrown f env fs1 rf e2 hu hpoll]
          refine ⟨rfl, ?_⟩
          intro e he
          simp at he
          rcases he with he | he
          · simp [he, Event.isUnlink]
          · exact hpollmem rf e he
      | final s =>
          by_cases hs : s = FileState.FAILED
          · subst hs
            rw [afterUpload_failed f env fs1 rf hu hpoll]
            refine ⟨rfl, ?_⟩
            intro e he
            simp at he
            rcases he with he | he
            · simp [he, Event.isUnlink]
            · exact hpollmem rf e he
          · cases hg : env.generateResult with
            | error e2 =>
                rw [afterUpload_genError f env fs1 rf s e2 hu hpoll hs hg]
                refine ⟨rfl, ?_⟩
                intro e he
                simp at he
                rcases he with he | he | he
                · simp [he, Event.isUnlink]
                · exact hpollmem rf e he
                · simp [he, Event.isUnlink]
            | ok t =>
                rw [afterUpload_success f env fs1 rf s t hu hpoll hs hg]
                refine ⟨rfl, ?_⟩
                intro e he
                simp at he
                rcases he with he | he | he
                · simp [he, Event.isUnlink]
                · exact hpollmem rf e he
                · simp [he, Event.isUnlink]

/-- Characterization of the events the simple pipeline can emit. -/
theorem afterUpload_events_mem (f : Part) (env : Env) (fs1 : List String) (e : Event)
    (h : e ∈ (Simple.afterUpload f env fs1).events) :
    e = .uploadCall f.filepath (f.mimetype.getD "") (displayName f)
      ∨ e.isPoll = true ∨ e.isGenerate = true := by
  have hpollmem : ∀ rf : RemoteFile, e ∈ (pollLoop rf.name env.pollResults).2 →
      e.isPoll = true := by
    intro rf hm
    rcases pollLoop_events_mem rf.name env.pollResults e hm with h2 | h2 <;>
      simp [h2, Event.isPoll]
  cases hu : env.uploadResult with
  | error e2 =>
      rw [afterUpload_uploadError f env fs1 e2 hu] at h
      simp at h
      exact Or.inl h
  | ok rf =>
      cases hpoll : (pollLoop rf.name env.pollResults).1 with
      | hang =>
          rw [afterUpload_hang f env fs1 rf hu hpoll] at h
          simp at h
          rcases h with h | h
          · exact Or.inl h
          · exact Or.inr (Or.inl (hpollmem rf h))
      | thrown e2 =>
          rw [afterUpload_pollThrown f env fs1 rf e2 hu hpoll] at h
          simp at h
          rcases h with h | h
          · exact Or.inl h
          · exact Or.inr (Or.inl (hpollmem rf h))
      | final s =>
          by_cases hs : s = FileState.FAILED
          · subst hs
            rw [afterUpload_failed f env fs1 rf hu hpoll] at h
            simp at h
            rcases h with h | h
            · exact Or.inl h
            · exact Or.inr (Or.inl (hpollmem rf h))
          · cases hg : env.generateResult with
            | error e2 =>
                rw [afterUpload_genError f env fs1 rf s e2 hu hpoll hs hg] at h
                simp at h
                rcases h with h | h | h
                · exact Or.inl h
                · exact Or.inr (Or.inl (hpollmem rf h))
                · simp [h, Event.isGenerate]
            | ok t =>
                rw [afterUpload_success f env fs1 rf s t hu hpoll hs hg] at h
                simp at h
                rcases h with h | h | h
                · exact Or.inl h
                · exact Or.inr (Or.inl (hpollmem rf h))
                · simp [h, Event.isGenerate]

/-- The status-poll events of the simple pipeline are exactly the polling
loop's trace. -/
theorem afterUpload_poll_filter (f : Part) (env : Env) (fs1 : List String)
    (rf : RemoteFile) (hu : env.uploadResult = .ok rf) :
    (Simple.afterUpload f env fs1).events.filter Event.isPoll
      = (pollLoop rf.name env.pollResults).2 := by
  cases hpoll : (pollLoop rf.name env.pollResults).1 with
  | hang =>
      rw [afterUpload_hang f env fs1 rf hu hpoll]
      simp [List.filter_append, Event.isPoll, pollLoop_events_poll]
  | thrown e =>
      rw [afterUpload_pollThrown f env fs1 rf e hu hpoll]
      simp [List.filter_append, Event.isPoll, pollLoop_events_poll]
  | final s =>
      by_cases hs : s = FileState.FAILED
      · subst hs
        rw [afterUpload_failed f env fs1 rf hu hpoll]
        simp [List.filter_append, Event.isPoll, pollLoop_events_poll]
      · cases hg : env.generateResult with
        | error e =>
            rw [afterUpload_genError f env fs1 rf s e hu hpoll hs hg]
            simp [List.filter_append, Event.isPoll, pollLoop_events_poll]
        | ok t =>
            rw [afterUpload_success f env fs1 rf s t hu hpoll hs hg]
            simp [List.filter_append, Event.isPoll, pollLoop_events_poll]

/-- The simple handler never deletes anything. -/
theorem simple_handler_no_unlink (method : String) (env : Env) :
    ∀ e ∈ (Simple.handler method env).events, e.isUnlink = false := by
  intro e he
  unfold Simple.handler at he
  cases hmeth : method != "POST" with
  | true => simp [hmeth] at he
  | false =>
      rw [hmeth] at he
      simp only [Bool.false_eq_true, if_false] at he
      cases hpr : Simple.parseFormData env.parseResult with
      | error e2 => simp [hpr] at he
      | ok kept =>
          simp only [hpr] at he
          cases hsel : selectFile kept with
          | none => simp [hsel] at he
          | some file =>
              simp only [hsel] at he
              by_cases hcond : (file.mimetype.getD "" == ""
                  || !(simpleAllowedTypes.contains (file.mimetype.getD ""))) = true
              · rw [if_pos hcond] at he
                simp at he
              · rw [if_neg hcond] at he
                exact (afterUpload_no_unlink file env _).2 e he

/-- The simple pipeline always performs the upload call with the selected
file. -/
theorem afterUpload_upload_mem (f : Part) (env : Env) (fs1 : List String) :
    Event.uploadCall f.filepath (f.mimetype.getD "") (displayName f)
      ∈ (Simple.afterUpload f env fs1).events := by
  cases hu : env.uploadResult with
  | error e =>
      rw [afterUpload_uploadError f env fs1 e hu]
      simp
  | ok rf =>
      cases hpoll : (pollLoop rf.name env.pollResults).1 with
      | hang =>
          rw [afterUpload_hang f env fs1 rf hu hpoll]
          simp
      | thrown e =>
          rw [afterUpload_pollThrown f env fs1 rf e hu hpoll]
          simp
      | final s =>
          by_cases hs : s = FileState.FAILED
          · subst hs
            rw [afterUpload_failed f env fs1 rf hu hpoll]
            simp
          · cases hg : env.generateResult with
            | error e =>
                rw [afterUpload_genError f env fs1 rf s e hu hpoll hs hg]
                simp
            | ok t =>
                rw [afterUpload_success f env fs1 rf s t hu hpoll hs hg]
                simp

/-- Special case: exactly one parsed file. -/
theorem simple_handler_single (env : Env) (f : Part) (m : String)
    (hp : env.parseResult = .ok [f]) (hmt : f.mimetype = some m)
    (hmem : m ∈ simpleAllowedTypes) (hn : f.name = "file") :
    Simple.handler "POST" env = Simple.afterUpload f env [f.filepath] := by
  have h := simple_handler_parts env f []
    (by simpa using hp)
    (by
      intro p hp2
      simp at hp2
      subst hp2
      constructor
      · rw [hmt]; simpa [simpleFilter] using hmem
      · exact hn)
  simpa using h

/-- On a FAILED terminal state the translate pipeline tail responds 500 with
the fixed processing-failure message and emits no generate event. -/
theorem afterNormalize_failed_noGen (f : Part) (pf : ProcFile) (env : Env)
    (fs1 : List String) (evs1 : List Event) (rf : RemoteFile)
    (hu : env.uploadResult = .ok rf)
    (hpoll : (pollLoop rf.name env.pollResults).1 = .final .FAILED)
    (hevs : ∀ e ∈ evs1, e.isGenerate = false) :
    (Translate.afterNormalize f pf env fs1 evs1).outcome =
        .resp 500 (.errDetails "Processing failed" "Audio processing failed") ∧
      ∀ e ∈ (Translate.afterNormalize f pf env fs1 evs1).events, e.isGenerate = false := by
  rw [afterNormalize_failed f pf env fs1 evs1 rf hu hpoll]
  refine ⟨rfl, ?_⟩
  intro e he
  simp [finishWith] at he
  rcases he with he | he | he | he
  · exact hevs e he
  · simp [he, Event.isGenerate]
  · rcases pollLoop_events_mem rf.name env.pollResults e he with h2 | h2 <;>
      simp [h2, Event.isGenerate]
  · rcases cleanup_events_mem f fs1 e he with h2 | h2 <;> simp [h2, Event.isGenerate]

/-- On a FAILED terminal state the simple pipeline responds 500 with the fixed
processing-failure message and emits no generate event. -/
theorem afterUpload_failed_noGen (f : Part) (env : Env) (fs1 : List String)
    (rf : RemoteFile)
    (hu : env.uploadResult = .ok rf)
    (hpoll : (pollLoop rf.name env.pollResults).1 = .final .FAILED) :
    (Simple.afterUpload f env fs1).outcome =
        .resp 500 (.errDetails "Processing failed" "Audio processing failed") ∧
      ∀ e ∈ (Simple.afterUpload f env fs1).events, e.isGenerate = false := by
  rw [afterUpload_failed f env fs1 rf hu hpoll]
  refine ⟨rfl, ?_⟩
  intro e he
  simp at he
  rcases he with he | he
  · simp [he, Event.isGenerate]
  · rcases pollLoop_events_mem rf.name env.pollResults e he with h2 | h2 <;>
      simp [h2, Event.isGenerate]

theorem isPoll_not_convert {e : Event} (h : e.isPoll = true) : e.isConvert = false := by
  cases e <;> simp_all [Event.isPoll, Event.isConvert]

theorem isGenerate_not_convert {e : Event} (h : e.isGenerate = true) : e.isConvert = false := by
  cases e <;> simp_all [Event.isGenerate, Event.isConvert]

theorem isPoll_not_touches (p : String) {e : Event} (h : e.isPoll = true) :
    e.touches p = false := by
  cases e <;> simp_all [Event.isPoll, Event.touches]

theorem isGenerate_not_touches (p : String) {e : Event} (h : e.isGenerate = true) :
    e.touches p = false := by
  cases e <;> simp_all [Event.isGenerate, Event.touches]

/-! ### Concrete fixtures used by witnesses and counterexamples -/

def samplePart : Part :=
  { name := "file", filepath := "/tmp/100-a.mp3", mimetype := some "audio/mp3",
    originalFilename := some "a.mp3" }

def sampleRemote : RemoteFile :=
  { name := "files/abc", uri := "uri-abc", mimeType := "audio/mp3" }

def sampleEnv : Env :=
  { parseResult := .ok [samplePart], convertResult := .ok (),
    uploadResult := .ok sampleRemote,
    pollResults := [.ok .PROCESSING, .ok .ACTIVE],
    generateResult := .ok "hello world", now := "2024-01-01T00:00:00Z" }

def badMimePart : Part :=
  { name := "file", filepath := "/tmp/101-doc.txt", mimetype := some "text/plain",
    originalFilename := some "doc.txt" }

def badMimeEnv : Env := { sampleEnv with parseResult := .ok [badMimePart] }

/-! ### Claims -/

/-- C7: for every request to either transcription endpoint whose method is
not POST, the response status is exactly 405 (body `{error:"Method not
allowed"}`), and nothing else happens for that request: no file is parsed or
written (the final local filesystem is empty) and no external call, pipeline
step, or cleanup runs (the event trace is empty). -/
theorem method_not_allowed_405 (method : String) (env : Env) (h : method ≠ "POST") :
    Translate.handler method env =
        { outcome := .resp 405 (.err "Method not allowed"), fs := [], events := [] } ∧
      Simple.handler method env =
        { outcome := .resp 405 (.err "Method not allowed"), fs := [], events := [] } := by
  constructor <;> simp [Translate.handler, Simple.handler, h]

/-- Witness for C7 at the concrete method GET. -/
theorem method_not_allowed_405_witness :
    Translate.handler "GET" sampleEnv =
        { outcome := .resp 405 (.err "Method not allowed"), fs := [], events := [] } ∧
      Simple.handler "GET" sampleEnv =
        { outcome := .resp 405 (.err "Method not allowed"), fs := [], events := [] } :=
  method_not_allowed_405 "GET" sampleEnv (by decide)

/-- C9 (amended): the health endpoint answers GET with 200 and
`{status:"OK", timestamp, service, version}` and any other method with 405 and
the same shape with status "ERROR"; the version field equals the APP_VERSION
environment variable when that is set to a non-empty string and "1.0.0" when
it is unset or set to the empty string. -/
theorem health_check_amended (method now : String) (v : Option String) :
    (method = "GET" →
      Health.handler method now v =
        (200, { status := "OK", timestamp := now, service := "health-check-api",
                version := Health.healthVersion v })) ∧
    (method ≠ "GET" →
      Health.handler method now v =
        (405, { status := "ERROR", timestamp := now, service := "health-check-api",
                version := Health.healthVersion v })) ∧
    (∀ s, s ≠ "" → Health.healthVersion (some s) = s) ∧
    Health.healthVersion none = "1.0.0" ∧
    Health.healthVersion (some "") = "1.0.0" := by
  refine ⟨?_, ?_, ?_, rfl, rfl⟩
  · intro h
    subst h
    simp [Health.handler]
  · intro h
    simp [Health.handler, h]
  · intro s hs
    simp [Health.healthVersion, hs]

/-- C9 counterexample: with APP_VERSION set (to the empty string), the
reported version is "1.0.0" and not the variable's value. -/
theorem health_version_empty_cx :
    (Health.handler "GET" "2024-01-01T00:00:00Z" (some "")).2.version = "1.0.0" ∧
      ("1.0.0" : String) ≠ "" := by
  exact ⟨by decide, by decide⟩

/-- Witness for C9 at concrete inputs (GET with APP_VERSION "2.0.0", POST with
it unset). -/
theorem health_check_amended_witness :
    Health.handler "GET" "T0" (some "2.0.0") =
        (200, { status := "OK", timestamp := "T0", service := "health-check-api",
                version := Health.healthVersion (some "2.0.0") }) ∧
      Health.handler "POST" "T0" none =
        (405, { status := "ERROR", timestamp := "T0", service := "health-check-api",
                version := Health.healthVersion none }) ∧
      Health.healthVersion (some "2.0.0") = "2.0.0" :=
  ⟨(health_check_amended "GET" "T0" (some "2.0.0")).1 rfl,
   (health_check_amended "POST" "T0" none).2.1 (by decide),
   (health_check_amended "GET" "T0" (some "2.0.0")).2.2.1 "2.0.0" (by decide)⟩

/-- C2 counterexample: a POST to the translate endpoint whose single uploaded
file has the disallowed MIME type text/plain is answered with status 500 (its
parse helper rejects "No file uploaded", which the generic catch turns into a
processing error), not 400 as the claim states. -/
theorem bad_mime_translate_cx :
    (Translate.handler "POST" badMimeEnv).outcome =
        .resp 500 (.errDetails "Processing failed" "No file uploaded") ∧
      (500 : Nat) ≠ 400 := by
  exact ⟨by decide, by decide⟩

/-- C2 (amended): a POST whose uploaded file has a MIME type outside the
allow-list is excluded by the parser filter on both endpoints; the simple
endpoint then responds 400 (no conforming file found), while the translate
endpoint responds 500 with details "No file uploaded", because its parse
helper rejects when the filter leaves no file and that rejection is caught by
the generic error handler. In both cases no pipeline call happens and no
temp file is recorded. -/
theorem bad_mime_amended (env : Env) (p : Part)
    (hp : env.parseResult = .ok [p])
    (h1 : translateFilter p.mimetype = false) (h2 : simpleFilter p.mimetype = false) :
    Translate.handler "POST" env =
        { outcome := .resp 500 (.errDetails "Processing failed" "No file uploaded"),
          fs := [], events := [] } ∧
      Simple.handler "POST" env =
        { outcome := .resp 400 (.err "Invalid or missing file"),
          fs := [], events := [] } := by
  constructor
  · simp [Translate.handler, Translate.parseFormData, hp, h1, translateDetails]
  · simp [Simple.handler, Simple.parseFormData, hp, h2, selectFile]

/-- Witness for C2 (amended) at the concrete text/plain upload. -/
theorem bad_mime_amended_witness :
    Translate.handler "POST" badMimeEnv =
        { outcome := .resp 500 (.errDetails "Processing failed" "No file uploaded"),
          fs := [], events := [] } ∧
      Simple.handler "POST" badMimeEnv =
        { outcome := .resp 400 (.err "Invalid or missing file"),
          fs := [], events := [] } :=
  bad_mime_amended badMimeEnv badMimePart rfl (by decide) (by decide)

/-- C8: for every request in which the pipeline completes successfully, the
response is 200 with body `{status:"success", generatedContent: t}` where t is
exactly the text returned by the generative model, with no transformation; the
translate endpoint's body additionally carries a timestamp field and the
simple endpoint's does not (modelled by the body's optional timestamp being
present resp. absent). -/
theorem success_response (env1 env2 : Env) (f1 f2 : Part) (m1 m2 : String)
    (rf1 rf2 : RemoteFile) (s1 s2 : FileState) (t1 t2 : String)
    (hp1 : env1.parseResult = .ok [f1]) (hm1 : f1.mimetype = some m1)
    (hmem1 : m1 ∈ translateSupportedTypes) (hn1 : f1.name = "file")
    (hc1 : env1.convertResult = .ok ()) (hu1 : env1.uploadResult = .ok rf1)
    (hpoll1 : (pollLoop rf1.name env1.pollResults).1 = .final s1)
    (hs1 : s1 ≠ FileState.FAILED) (hg1 : env1.generateResult = .ok t1)
    (hp2 : env2.parseResult = .ok [f2]) (hm2 : f2.mimetype = some m2)
    (hmem2 : m2 ∈ simpleAllowedTypes) (hn2 : f2.name = "file")
    (hu2 : env2.uploadResult = .ok rf2)
    (hpoll2 : (pollLoop rf2.name env2.pollResults).1 = .final s2)
    (hs2 : s2 ≠ FileState.FAILED) (hg2 : env2.generateResult = .ok t2) :
    (Translate.handler "POST" env1).outcome = .resp 200 (.success (some env1.now) t1) ∧
      (Simple.handler "POST" env2).outcome = .resp 200 (.success none t2) := by
  constructor
  · rw [translate_handler_single env1 f1 m1 hp1 hm1 hmem1 hn1]
    by_cases hcond : (strStartsWith m1 "video/" || m1 == "audio/webm") = true
    · simp only [hcond, if_true, hc1]
      rw [afterNormalize_success f1 _ env1 _ _ rf1 s1 t1 hu1 hpoll1 hs1 hg1]
      rfl
    · simp only [Bool.not_eq_true] at hcond
      simp only [hcond, Bool.false_eq_true, if_false]
      rw [afterNormalize_success f1 _ env1 _ _ rf1 s1 t1 hu1 hpoll1 hs1 hg1]
      rfl
  · rw [simple_handler_single env2 f2 m2 hp2 hm2 hmem2 hn2]
    rw [afterUpload_success f2 env2 _ rf2 s2 t2 hu2 hpoll2 hs2 hg2]

/-- Witness for C8 at a fully concrete successful request. -/
theorem success_response_witness :
    (Translate.handler "POST" sampleEnv).outcome =
        .resp 200 (.success (some sampleEnv.now) "hello world") ∧
      (Simple.handler "POST" sampleEnv).outcome = .resp 200 (.success none "hello world") :=
  success_response sampleEnv sampleEnv samplePart samplePart "audio/mp3" "audio/mp3"
    sampleRemote sampleRemote .ACTIVE .ACTIVE "hello world" "hello world"
    rfl rfl (by decide) rfl rfl rfl (by decide) (by decide) rfl
    rfl rfl (by decide) rfl rfl (by decide) (by decide) rfl

/-- C5: for every request in which the remote file's terminal state is FAILED,
both endpoints respond 500 with details "Audio processing failed" — whose
lowercasing contains the substring "processing failed" — and the generative
model is never invoked (no generate event appears in the trace). -/
theorem failed_state_500 (env1 env2 : Env) (f1 f2 : Part) (m1 m2 : String)
    (rf1 rf2 : RemoteFile)
    (hp1 : env1.parseResult = .ok [f1]) (hm1 : f1.mimetype = some m1)
    (hmem1 : m1 ∈ translateSupportedTypes) (hn1 : f1.name = "file")
    (hc1 : env1.convertResult = .ok ()) (hu1 : env1.uploadResult = .ok rf1)
    (hpoll1 : (pollLoop rf1.name env1.pollResults).1 = .final .FAILED)
    (hp2 : env2.parseResult = .ok [f2]) (hm2 : f2.mimetype = some m2)
    (hmem2 : m2 ∈ simpleAllowedTypes) (hn2 : f2.name = "file")
    (hu2 : env2.uploadResult = .ok rf2)
    (hpoll2 : (pollLoop rf2.name env2.pollResults).1 = .final .FAILED) :
    (Translate.handler "POST" env1).outcome =
        .resp 500 (.errDetails "Processing failed" "Audio processing failed") ∧
      (∀ e ∈ (Translate.handler "POST" env1).events, e.isGenerate = false) ∧
      (Simple.handler "POST" env2).outcome =
        .resp 500 (.errDetails "Processing failed" "Audio processing failed") ∧
      (∀ e ∈ (Simple.handler "POST" env2).events, e.isGenerate = false) ∧
      (∃ pre post, lowerStr "Audio processing failed" = pre ++ "processing failed" ++ post) := by
  have htr : (Translate.handler "POST" env1).outcome =
        .resp 500 (.errDetails "Processing failed" "Audio processing failed") ∧
      ∀ e ∈ (Translate.handler "POST" env1).events, e.isGenerate = false := by
    rw [translate_handler_single env1 f1 m1 hp1 hm1 hmem1 hn1]
    by_cases hcond : (strStartsWith m1 "video/" || m1 == "audio/webm") = true
    · simp only [hcond, if_true, hc1]
      exact afterNormalize_failed_noGen f1 _ env1 _ _ rf1 hu1 hpoll1
        (by intro e he; simp at he; simp [he, Event.isGenerate])
    · simp only [Bool.not_eq_true] at hcond
      simp only [hcond, Bool.false_eq_true, if_false]
      exact afterNormalize_failed_noGen f1 _ env1 _ _ rf1 hu1 hpoll1 (by intro e he; simp at he)
  have hsi : (Simple.handler "POST" env2).outcome =
        .resp 500 (.errDetails "Processing failed" "Audio processing failed") ∧
      ∀ e ∈ (Simple.handler "POST" env2).events, e.isGenerate = false := by
    rw [simple_handler_single env2 f2 m2 hp2 hm2 hmem2 hn2]
    exact afterUpload_failed_noGen f2 env2 _ rf2 hu2 hpoll2
  exact ⟨htr.1, htr.2, hsi.1, hsi.2, "audio ", "", by decide⟩

/-- Witness for C5 at a fully concrete request whose remote processing fails. -/
theorem failed_state_500_witness :
    (Translate.handler "POST"
        { sampleEnv with pollResults := [.ok .PROCESSING, .ok .FAILED] }).outcome =
      .resp 500 (.errDetails "Processing failed" "Audio processing failed") ∧
    (∀ e ∈ (Translate.handler "POST"
        { sampleEnv with pollResults := [.ok .PROCESSING, .ok .FAILED] }).events,
      e.isGenerate = false) ∧
    (Simple.handler "POST"
        { sampleEnv with pollResults := [.ok .PROCESSING, .ok .FAILED] }).outcome =
      .resp 500 (.errDetails "Processing failed" "Audio processing failed") ∧
    (∀ e ∈ (Simple.handler "POST"
        { sampleEnv with pollResults := [.ok .PROCESSING, .ok .FAILED] }).events,
      e.isGenerate = false) ∧
    (∃ pre post, lowerStr "Audio processing failed" = pre ++ "processing failed" ++ post) :=
  failed_state_500
    { sampleEnv with pollResults := [.ok .PROCESSING, .ok .FAILED] }
    { sampleEnv with pollResults := [.ok .PROCESSING, .ok .FAILED] }
    samplePart samplePart "audio/mp3" "audio/mp3" sampleRemote sampleRemote
    rfl rfl (by decide) rfl rfl rfl (by decide)
    rfl rfl (by decide) rfl rfl (by decide)

def strThrowEnv : Env := { sampleEnv with parseResult := .error (.strVal "boom") }

/-- C6 counterexample: when a plain string "boom" is thrown during parsing,
the translate endpoint's details field is "boom" — the thrown string verbatim
— although the claim requires "Unknown error" for every non-Error thrown
value. -/
theorem error_details_string_cx :
    (Translate.handler "POST" strThrowEnv).outcome =
        .resp 500 (.errDetails "Processing failed" "boom") ∧
      ("boom" : String) ≠ "Unknown error" := by
  exact ⟨by decide, by decide⟩

/-- C6 (amended): every error thrown during parsing, normalization, upload,
polling, or generation yields status 500 with body
`{error:"Processing failed", details: d}`. On both endpoints d is the Error's
message when the thrown value is an Error; for other thrown values the simple
endpoint always reports "Unknown error", while the translate endpoint forwards
a thrown string verbatim and reports "Unknown error" only for non-Error,
non-string values. -/
theorem error_details_amended :
    (∀ m, translateDetails (.errObj m) = m) ∧
    (∀ s, translateDetails (.strVal s) = s) ∧
    translateDetails .otherVal = "Unknown error" ∧
    (∀ m, simpleDetails (.errObj m) = m) ∧
    (∀ s, simpleDetails (.strVal s) = "Unknown error") ∧
    simpleDetails .otherVal = "Unknown error" ∧
    (∀ env e, env.parseResult = .error e →
      (Translate.handler "POST" env).outcome =
          .resp 500 (.errDetails "Processing failed" (translateDetails e)) ∧
        (Simple.handler "POST" env).outcome =
          .resp 500 (.errDetails "Processing failed" (simpleDetails e))) ∧
    (∀ env f m e, env.parseResult = .ok [f] → f.mimetype = some m →
      m ∈ translateSupportedTypes → f.name = "file" →
      (strStartsWith m "video/" || m == "audio/webm") = true →
      env.convertResult = .error e →
      (Translate.handler "POST" env).outcome =
        .resp 500 (.errDetails "Processing failed" (translateDetails e))) ∧
    (∀ env f m e, env.parseResult = .ok [f] → f.mimetype = some m →
      m ∈ translateSupportedTypes → f.name = "file" →
      env.convertResult = .ok () → env.uploadResult = .error e →
      (Translate.handler "POST" env).outcome =
        .resp 500 (.errDetails "Processing failed" (translateDetails e))) ∧
    (∀ env f m e, env.parseResult = .ok [f] → f.mimetype = some m →
      m ∈ simpleAllowedTypes → f.name = "file" → env.uploadResult = .error e →
      (Simple.handler "POST" env).outcome =
        .resp 500 (.errDetails "Processing failed" (simpleDetails e))) ∧
    (∀ env f m e rf, env.parseResult = .ok [f] → f.mimetype = some m →
      m ∈ translateSupportedTypes → f.name = "file" →
      env.convertResult = .ok () → env.uploadResult = .ok rf →
      (pollLoop rf.name env.pollResults).1 = .thrown e →
      (Translate.handler "POST" env).outcome =
        .resp 500 (.errDetails "Processing failed" (translateDetails e))) ∧
    (∀ env f m e rf, env.parseResult = .ok [f] → f.mimetype = some m →
      m ∈ simpleAllowedTypes → f.name = "file" → env.uploadResult = .ok rf →
      (pollLoop rf.name env.pollResults).1 = .thrown e →
      (Simple.handler "POST" env).outcome =
        .resp 500 (.errDetails "Processing failed" (simpleDetails e))) ∧
    (∀ env f m e rf s, env.parseResult = .ok [f] → f.mimetype = some m →
      m ∈ translateSupportedTypes → f.name = "file" →
      env.convertResult = .ok () → env.uploadResult = .ok rf →
      (pollLoop rf.name env.pollResults).1 = .final s → s ≠ FileState.FAILED →
      env.generateResult = .error e →
      (Translate.handler "POST" env).outcome =
        .resp 500 (.errDetails "Processing failed" (translateDetails e))) ∧
    (∀ env f m e rf s, env.parseResult = .ok [f] → f.mimetype = some m →
      m ∈ simpleAllowedTypes → f.name = "file" → env.uploadResult = .ok rf →
      (pollLoop rf.name env.pollResults).1 = .final s → s ≠ FileState.FAILED →
      env.generateResult = .error e →
      (Simple.handler "POST" env).outcome =
        .resp 500 (.errDetails "Processing failed" (simpleDetails e))) := by
  refine ⟨fun m => rfl, fun s => rfl, rfl, fun m => rfl, fun s => rfl, rfl,
    ?_, ?_, ?_, ?_, ?_, ?_, ?_, ?_⟩
  · intro env e hp
    constructor
    · simp [Translate.handler, Translate.parseFormData, hp]
    · simp [Simple.handler, Simple.parseFormData, hp]
  · intro env f m e hp hmt hmem hn hcond hc
    rw [translate_handler_single env f m hp hmt hmem hn]
    simp [hcond, hc, finishWith]
  · intro env f m e hp hmt hmem hn hc hu
    rw [translate_handler_single env f m hp hmt hmem hn]
    by_cases hcond : (strStartsWith m "video/" || m == "audio/webm") = true
    · simp only [hcond, if_true, hc]
      rw [afterNormalize_uploadError f _ env _ _ e hu]
      rfl
    · simp only [Bool.not_eq_true] at hcond
      simp only [hcond, Bool.false_eq_true, if_false]
      rw [afterNormalize_uploadError f _ env _ _ e hu]
      rfl
  · intro env f m e hp hmt hmem hn hu
    rw [simple_handler_single env f m hp hmt hmem hn]
    rw [afterUpload_uploadError f env _ e hu]
  · intro env f m e rf hp hmt hmem hn hc hu hpoll
    rw [translate_handler_single env f m hp hmt hmem hn]
    by_cases hcond : (strStartsWith m "video/" || m == "audio/webm") = true
    · simp only [hcond, if_true, hc]
      rw [afterNormalize_pollThrown f _ env _ _ rf e hu hpoll]
      rfl
    · simp only [Bool.not_eq_true] at hcond
      simp only [hcond, Bool.false_eq_true, if_false]
      rw [afterNormalize_pollThrown f _ env _ _ rf e hu hpoll]
      rfl
  · intro env f m e rf hp hmt hmem hn hu hpoll
    rw [simple_handler_single env f m hp hmt hmem hn]
    rw [afterUpload_pollThrown f env _ rf e hu hpoll]
  · intro env f m e rf s hp hmt hmem hn hc hu hpoll hs hg
    rw [translate_handler_single env f m hp hmt hmem hn]
    by_cases hcond : (strStartsWith m "video/" || m == "audio/webm") = true
    · simp only [hcond, if_true, hc]
      rw [afterNormalize_genError f _ env _ _ rf s e hu hpoll hs hg]
      rfl
    · simp only [Bool.not_eq_true] at hcond
      simp only [hcond, Bool.false_eq_true, if_false]
      rw [afterNormalize_genError f _ env _ _ rf s e hu hpoll hs hg]
      rfl
  · intro env f m e rf s hp hmt hmem hn hu hpoll hs hg
    rw [simple_handler_single env f m hp hmt hmem hn]
    rw [afterUpload_genError f env _ rf s e hu hpoll hs hg]

/-- Witness for C6 (amended): parse-phase Error and string throws, and a
generation-phase non-Error throw, at concrete requests. -/
theorem error_details_amended_witness :
    ((Translate.handler "POST" strThrowEnv).outcome =
        .resp 500 (.errDetails "Processing failed" (translateDetails (.strVal "boom"))) ∧
      (Simple.handler "POST" strThrowEnv).outcome =
        .resp 500 (.errDetails "Processing failed" (simpleDetails (.strVal "boom")))) ∧
    (Translate.handler "POST" { sampleEnv with generateResult := .error .otherVal }).outcome =
      .resp 500 (.errDetails "Processing failed"
        (translateDetails .otherVal)) :=
  ⟨error_details_amended.2.2.2.2.2.2.1 strThrowEnv (.strVal "boom") rfl,
   error_details_amended.2.2.2.2.2.2.2.2.2.2.2.2.1
     { sampleEnv with generateResult := .error .otherVal }
     samplePart "audio/mp3" .otherVal sampleRemote .ACTIVE
     rfl rfl (by decide) rfl rfl rfl (by decide) (by decide) rfl⟩

/-- C3: in the translate handler the normalizer (convertToMp3) runs if and
only if the file's MIME type starts with "video/" or equals "audio/webm".
When it runs, the pair passed downstream to the file upload is
`{filepath := inputPath ++ ".mp3", mimetype := "audio/mp3"}`; for every other
MIME type no conversion event occurs and the input `{filepath, mimetype}` pair
is passed to the upload unchanged. -/
theorem normalizer_condition (env : Env) (f : Part) (m : String)
    (hp : env.parseResult = .ok [f]) (hmt : f.mimetype = some m)
    (hmem : m ∈ translateSupportedTypes) (hn : f.name = "file") :
    ((strStartsWith m "video/" || m == "audio/webm") = true →
      Event.convertCall f.filepath (f.filepath ++ ".mp3")
          ∈ (Translate.handler "POST" env).events ∧
        (env.convertResult = .ok () →
          Event.uploadCall (f.filepath ++ ".mp3") "audio/mp3" (displayName f)
            ∈ (Translate.handler "POST" env).events)) ∧
    ((strStartsWith m "video/" || m == "audio/webm") = false →
      (∀ e ∈ (Translate.handler "POST" env).events, e.isConvert = false) ∧
        Event.uploadCall f.filepath m (displayName f)
          ∈ (Translate.handler "POST" env).events) := by
  rw [translate_handler_single env f m hp hmt hmem hn]
  constructor
  · intro hcond
    simp only [hcond, if_true]
    constructor
    · cases hc : env.convertResult with
      | error e =>
          simp only [hc]
          simp [finishWith]
      | ok u =>
          cases u
          simp only [hc]
          obtain ⟨tl, htl⟩ := afterNormalize_events_lead f
            ⟨f.filepath ++ ".mp3", "audio/mp3"⟩ env
            [f.filepath, f.filepath ++ ".mp3"]
            [.convertCall f.filepath (f.filepath ++ ".mp3")]
          rw [htl]
          simp
    · intro hc
      simp only [hc]
      exact afterNormalize_upload_mem f ⟨f.filepath ++ ".mp3", "audio/mp3"⟩ env
        [f.filepath, f.filepath ++ ".mp3"]
        [.convertCall f.filepath (f.filepath ++ ".mp3")]
  · intro hcond
    simp only [hcond, Bool.false_eq_true, if_false]
    constructor
    · intro e he
      rcases afterNormalize_events_mem f ⟨f.filepath, m⟩ env [f.filepath] [] e he with
        h | h | h | h | h | h
      · simp at h
      · simp [h, Event.isConvert]
      · exact isPoll_not_convert h
      · exact isGenerate_not_convert h
      · simp [h, Event.isConvert]
      · simp [h, Event.isConvert]
    · exact afterNormalize_upload_mem f ⟨f.filepath, m⟩ env [f.filepath] []

/-- Witness for C3: a video/webm upload is converted and the derived MP3 pair
is uploaded; an audio/mp3 upload is passed through unchanged with no
conversion. -/
theorem normalizer_condition_witness :
    (Event.convertCall "/tmp/100-a.mp3" "/tmp/100-a.mp3.mp3"
        ∈ (Translate.handler "POST"
            { sampleEnv with
                parseResult := .ok [{ samplePart with mimetype := some "video/webm" }] }).events ∧
      Event.uploadCall "/tmp/100-a.mp3.mp3" "audio/mp3" "a.mp3"
        ∈ (Translate.handler "POST"
            { sampleEnv with
                parseResult := .ok [{ samplePart with mimetype := some "video/webm" }] }).events) ∧
    ((∀ e ∈ (Translate.handler "POST" sampleEnv).events, e.isConvert = false) ∧
      Event.uploadCall "/tmp/100-a.mp3" "audio/mp3" "a.mp3"
        ∈ (Translate.handler "POST" sampleEnv).events) := by
  have h1 := (normalizer_condition
    { sampleEnv with
        parseResult := .ok [{ samplePart with mimetype := some "video/webm" }] }
    { samplePart with mimetype := some "video/webm" } "video/webm"
    rfl rfl (by decide) rfl).1 (by decide)
  have h2 := (normalizer_condition sampleEnv samplePart "audio/mp3"
    rfl rfl (by decide) rfl).2 (by decide)
  exact ⟨⟨h1.1, h1.2 rfl⟩, h2⟩

/-- C4: in both handlers the polling loop issues a status request and then
repeats a fixed 10000 ms sleep followed by another status request exactly
while the observed state is PROCESSING: its event trace is n repetitions of
(getFile, sleep 10000) followed by one final getFile, where n counts the
leading PROCESSING answers, so consecutive requests are separated by the fixed
10-second wait and no further request is issued once a non-PROCESSING answer
(ACTIVE or FAILED) is observed; a state the loop exits with is never
PROCESSING; and in each handler, once the pipeline reaches the poll phase, the
poll events of the whole request trace are exactly this loop trace. -/
theorem polling_loop_shape :
    (∀ name rs, (pollLoop name rs).2 =
        (List.replicate (leadingProcessing rs)
          [Event.getFileCall name, Event.sleep 10000]).flatten
          ++ [Event.getFileCall name]) ∧
    (∀ name rs s, (pollLoop name rs).1 = .final s → s ≠ FileState.PROCESSING) ∧
    (∀ env f m rf, env.parseResult = .ok [f] → f.mimetype = some m →
      m ∈ translateSupportedTypes → f.name = "file" → env.convertResult = .ok () →
      env.uploadResult = .ok rf →
      (Translate.handler "POST" env).events.filter Event.isPoll
        = (pollLoop rf.name env.pollResults).2) ∧
    (∀ env f m rf, env.parseResult = .ok [f] → f.mimetype = some m →
      m ∈ simpleAllowedTypes → f.name = "file" → env.uploadResult = .ok rf →
      (Simple.handler "POST" env).events.filter Event.isPoll
        = (pollLoop rf.name env.pollResults).2) := by
  refine ⟨pollLoop_events_shape, pollLoop_final_ne, ?_, ?_⟩
  · intro env f m rf hp hmt hmem hn hc hu
    rw [translate_handler_single env f m hp hmt hmem hn]
    by_cases hcond : (strStartsWith m "video/" || m == "audio/webm") = true
    · simp only [hcond, if_true, hc]
      exact afterNormalize_poll_filter f _ env _ _ rf hu (by simp [Event.isPoll])
    · simp only [Bool.not_eq_true] at hcond
      simp only [hcond, Bool.false_eq_true, if_false]
      exact afterNormalize_poll_filter f _ env _ _ rf hu (by simp)
  · intro env f m rf hp hmt hmem hn hu
    rw [simple_handler_single env f m hp hmt hmem hn]
    exact afterUpload_poll_filter f env _ rf hu

/-- Witness for C4 at concrete requests: one PROCESSING answer then ACTIVE. -/
theorem polling_loop_shape_witness :
    (Translate.handler "POST" sampleEnv).events.filter Event.isPoll
        = (pollLoop sampleRemote.name sampleEnv.pollResults).2 ∧
      (Simple.handler "POST" sampleEnv).events.filter Event.isPoll
        = (pollLoop sampleRemote.name sampleEnv.pollResults).2 ∧
      FileState.ACTIVE ≠ FileState.PROCESSING :=
  ⟨polling_loop_shape.2.2.1 sampleEnv samplePart "audio/mp3" sampleRemote
      rfl rfl (by decide) rfl rfl rfl,
   polling_loop_shape.2.2.2 sampleEnv samplePart "audio/mp3" sampleRemote
      rfl rfl (by decide) rfl rfl,
   polling_loop_shape.2.1 "files/abc" [.ok .PROCESSING, .ok .ACTIVE] .ACTIVE (by decide)⟩

/-- C1 counterexample: on the simple endpoint a fully successful request
resolves with the uploaded temp file still present on the local filesystem
and no deletion ever attempted. -/
theorem cleanup_simple_cx :
    (Simple.handler "POST" sampleEnv).outcome = .resp 200 (.success none "hello world") ∧
      "/tmp/100-a.mp3" ∈ (Simple.handler "POST" sampleEnv).fs ∧
      (Simple.handler "POST" sampleEnv).events.all (fun e => !(e.isUnlink)) = true := by
  exact ⟨by decide, by decide, by decide⟩

/-- C1 (amended): on the translate endpoint, whenever the form parse
succeeded, a file was selected, and the handler resolves with a response
(any of 200, 400, 500), the finally phase attempts deletion of both the
uploaded file's path and that path with ".mp3" appended — regardless of which
pipeline step failed — and neither path remains on the local filesystem
afterwards. The simple endpoint, however, performs no cleanup at all: none of
its requests ever emits a deletion. -/
theorem cleanup_amended (env : Env) (kept : List Part) (f : Part) (st : Nat) (b : Body)
    (hp : Translate.parseFormData env.parseResult = .ok kept)
    (hsel : selectFile kept = some f)
    (hnd : (kept.map (fun p => p.filepath)).Nodup)
    (hmp3 : (f.filepath ++ ".mp3") ∉ kept.map (fun p => p.filepath))
    (hres : (Translate.handler "POST" env).outcome = .resp st b) :
    (Event.unlinkCall f.filepath ∈ (Translate.handler "POST" env).events ∧
      Event.unlinkCall (f.filepath ++ ".mp3") ∈ (Translate.handler "POST" env).events ∧
      f.filepath ∉ (Translate.handler "POST" env).fs ∧
      (f.filepath ++ ".mp3") ∉ (Translate.handler "POST" env).fs) ∧
    (∀ menv : Env, ∀ method : String,
      ∀ e ∈ (Simple.handler method menv).events, e.isUnlink = false) := by
  refine ⟨?_, fun menv method => simple_handler_no_unlink method menv⟩
  have hmemf : f.filepath ∈ kept.map (fun p => p.filepath) :=
    List.mem_map_of_mem _ (selectFile_mem hsel)
  rw [translate_handler_kept env kept f hp hsel] at hres ⊢
  by_cases hcond : (strStartsWith (f.mimetype.getD "") "video/"
      || f.mimetype.getD "" == "audio/webm") = true
  · simp only [hcond, if_true] at hres ⊢
    cases hc : env.convertResult with
    | error e =>
        simp only [hc] at hres ⊢
        obtain ⟨hcev, hn1, hn2⟩ := cleanup_spec f (kept.map (fun p => p.filepath)) hmemf hnd
        refine ⟨?_, ?_, ?_, ?_⟩
        · simp [finishWith, hcev]
        · simp [finishWith, hcev]
        · simpa [finishWith] using hn1
        · simpa [finishWith] using hn2
    | ok u =>
        cases u
        simp only [hc] at hres ⊢
        have hnd2 : (kept.map (fun p => p.filepath) ++ [f.filepath ++ ".mp3"]).Nodup := by
          rw [List.nodup_append]
          exact ⟨hnd, List.nodup_singleton _, by
            intro a ha hb
            simp at hb
            subst hb
            exact hmp3 ha⟩
        exact afterNormalize_cleanup f _ env _ _ st b hres (by simp [hmemf]) hnd2
  · simp only [Bool.not_eq_true] at hcond
    simp only [hcond, Bool.false_eq_true, if_false] at hres ⊢
    exact afterNormalize_cleanup f _ env _ _ st b hres hmemf hnd

/-- Witness for C1 (amended): both unlinks happen and neither path survives on
a concrete successful translate request. -/
theorem cleanup_amended_witness :
    (Event.unlinkCall "/tmp/100-a.mp3" ∈ (Translate.handler "POST" sampleEnv).events ∧
      Event.unlinkCall ("/tmp/100-a.mp3" ++ ".mp3")
          ∈ (Translate.handler "POST" sampleEnv).events ∧
      "/tmp/100-a.mp3" ∉ (Translate.handler "POST" sampleEnv).fs ∧
      ("/tmp/100-a.mp3" ++ ".mp3") ∉ (Translate.handler "POST" sampleEnv).fs) ∧
    (∀ menv : Env, ∀ method : String,
      ∀ e ∈ (Simple.handler method menv).events, e.isUnlink = false) := by
  have h := cleanup_amended sampleEnv [samplePart] samplePart 200
    (.success (some "2024-01-01T00:00:00Z") "hello world")
    rfl rfl (by decide) (by decide) (by decide)
  exact h

/-- C10: when the parsed form's "file" entry is an array, in both handlers
exactly the first element is selected and used for the pipeline (and, on the
translate endpoint, for cleanup); any further element g is never uploaded and
never deleted — no event of either handler uploads or unlinks g's path — and
g's file remains on the local filesystem after the request. -/
theorem array_first_file (env1 env2 : Env) (f : Part) (rest : List Part) (g : Part)
    (hp1 : env1.parseResult = .ok (f :: rest))
    (hall1 : ∀ p ∈ f :: rest, translateFilter p.mimetype = true ∧ p.name = "file")
    (hp2 : env2.parseResult = .ok (f :: rest))
    (hall2 : ∀ p ∈ f :: rest, simpleFilter p.mimetype = true ∧ p.name = "file")
    (hg : g ∈ rest)
    (hne1 : g.filepath ≠ f.filepath) (hne2 : g.filepath ≠ f.filepath ++ ".mp3") :
    selectFile (f :: rest) = some f ∧
      (∀ e ∈ (Translate.handler "POST" env1).events, e.touches g.filepath = false) ∧
      g.filepath ∈ (Translate.handler "POST" env1).fs ∧
      (∀ e ∈ (Simple.handler "POST" env2).events, e.touches g.filepath = false) ∧
      g.filepath ∈ (Simple.handler "POST" env2).fs := by
  have hb1 : (f.filepath == g.filepath) = false :=
    beq_eq_false_iff_ne.mpr (Ne.symm hne1)
  have hb2 : ((f.filepath ++ ".mp3") == g.filepath) = false :=
    beq_eq_false_iff_ne.mpr (Ne.symm hne2)
  have hgm : g.filepath ∈ (f :: rest).map (fun p => p.filepath) :=
    List.mem_map_of_mem _ (List.mem_cons_of_mem f hg)
  have hnames : (f :: rest).filter (fun p => p.name == "file") = f :: rest :=
    List.filter_eq_self.mpr (fun p hp3 => by simp [(hall1 p hp3).2])
  refine ⟨by simp [selectFile, hnames], ?_, ?_, ?_, ?_⟩
  · rw [translate_handler_parts env1 f rest hp1 hall1]
    by_cases hcond : (strStartsWith (f.mimetype.getD "") "video/"
        || f.mimetype.getD "" == "audio/webm") = true
    · simp only [hcond, if_true]
      cases hc : env1.convertResult with
      | error e2 =>
          simp only [hc]
          intro e he
          simp [finishWith] at he
          rcases he with he | he
          · simp [he, Event.touches]
          · rcases cleanup_events_mem f _ e he with h2 | h2 <;>
              simp [h2, Event.touches, hb1, hb2]
      | ok u =>
          cases u
          simp only [hc]
          intro e he
          rcases afterNormalize_events_mem f
            ⟨f.filepath ++ ".mp3", "audio/mp3"⟩ env1 _ _ e he with
            h | h | h | h | h | h
          · simp at h
            simp [h, Event.touches]
          · simp [h, Event.touches, hb2]
          · exact isPoll_not_touches g.filepath h
          · exact isGenerate_not_touches g.filepath h
          · simp [h, Event.touches, hb1]
          · simp [h, Event.touches, hb2]
    · simp only [Bool.not_eq_true] at hcond
      simp only [hcond, Bool.false_eq_true, if_false]
      intro e he
      rcases afterNormalize_events_mem f
        ⟨f.filepath, f.mimetype.getD ""⟩ env1 _ [] e he with
        h | h | h | h | h | h
      · simp at h
      · simp [h, Event.touches, hb1]
      · exact isPoll_not_touches g.filepath h
      · exact isGenerate_not_touches g.filepath h
      · simp [h, Event.touches, hb1]
      · simp [h, Event.touches, hb2]
  · rw [translate_handler_parts env1 f rest hp1 hall1]
    by_cases hcond : (strStartsWith (f.mimetype.getD "") "video/"
        || f.mimetype.getD "" == "audio/webm") = true
    · simp only [hcond, if_true]
      cases hc : env1.convertResult with
      | error e2 =>
          simp only [hc]
          simp only [finishWith]
          exact cleanup_keeps f _ g.filepath hne1 hne2 hgm
      | ok u =>
          cases u
          simp only [hc]
          rcases afterNormalize_fs f ⟨f.filepath ++ ".mp3", "audio/mp3"⟩ env1
            ((f :: rest).map (fun p => p.filepath) ++ [f.filepath ++ ".mp3"])
            [.convertCall f.filepath (f.filepath ++ ".mp3")] with hfs | hfs
          · rw [hfs]
            exact List.mem_append_left _ hgm
          · rw [hfs]
            exact cleanup_keeps f _ g.filepath hne1 hne2 (List.mem_append_left _ hgm)
    · simp only [Bool.not_eq_true] at hcond
      simp only [hcond, Bool.false_eq_true, if_false]
      rcases afterNormalize_fs f ⟨f.filepath, f.mimetype.getD ""⟩ env1
        ((f :: rest).map (fun p => p.filepath)) [] with hfs | hfs
      · rw [hfs]
        exact hgm
      · rw [hfs]
        exact cleanup_keeps f _ g.filepath hne1 hne2 hgm
  · rw [simple_handler_parts env2 f rest hp2 hall2]
    intro e he
    rcases afterUpload_events_mem f env2 _ e he with h | h | h
    · simp [h, Event.touches, hb1]
    · exact isPoll_not_touches g.filepath h
    · exact isGenerate_not_touches g.filepath h
  · rw [simple_handler_parts env2 f rest hp2 hall2]
    rw [(afterUpload_no_unlink f env2 _).1]
    exact hgm

def secondPart : Part :=
  { name := "file", filepath := "/tmp/102-b.mp3", mimetype := some "audio/mp3",
    originalFilename := some "b.mp3" }

def arrayEnv : Env := { sampleEnv with parseResult := .ok [samplePart, secondPart] }

/-- Witness for C10 at a concrete two-element "file" array. -/
theorem array_first_file_witness :
    selectFile [samplePart, secondPart] = some samplePart ∧
      (∀ e ∈ (Translate.handler "POST" arrayEnv).events,
        e.touches secondPart.filepath = false) ∧
      secondPart.filepath ∈ (Translate.handler "POST" arrayEnv).fs ∧
      (∀ e ∈ (Simple.handler "POST" arrayEnv).events,
        e.touches secondPart.filepath = false) ∧
      secondPart.filepath ∈ (Simple.handler "POST" arrayEnv).fs :=
  array_first_file arrayEnv arrayEnv samplePart [secondPart] secondPart
    rfl (by decide) rfl (by decide) (by decide) (by decide) (by decide)

end Asr
